import Mathlib

/-!
Verification development for the KRAFTON-JUNGLE-EUM python-server streaming core.

The Lean definitions below are a shallow embedding of the Python sources:

* `config/settings.py` and the inline `Config` class of `server_v10.py`
  (shared numeric constants, filler-word and pattern tables);
* `server_v10.py`: `VADProcessor`, `LanguageTopology`,
  `SessionState.determine_primary_strategy`, the inline `RoomCacheManager`
  (whose translation/TTS keys omit `room_id`), `ModelManager._is_hallucination`,
  the `StreamChat` audio-ingestion state machine and `_process_audio`;
* `cache/room_cache.py`: the room-scoped `RoomCacheManager`
  (`get_or_create_stt` with its pending-request coalescing,
  `get_or_create_translation`, `get_or_create_tts`);
* `models/stt.py`: `_is_audio_artifact`;
* `services/room_processor.py`: `process_audio_parallel`.

Modelling conventions: machine time (`time.time()`) is a natural-number
clock that advances nondeterministically; Python `bytes` payloads are kept
abstract (only their length or emptiness is inspected, exactly as in the
code paths modelled); the opaque STT / translation / TTS engines are
oracle parameters; float ratio comparisons (`x / n > 0.6`) are embedded as
the exact integer comparisons (`10 * x > 6 * n`).  Concurrency in the
cache layer is modelled by an interleaving small-step relation in which
every `with self._cache_lock:` block of the source is one atomic step and
the compute call runs between steps.
-/

namespace Eum

/-! Configuration constants (config/settings.py, identical values in the
inline Config of server_v10.py unless noted). -/

def SAMPLE_RATE : Nat := 16000

def BYTES_PER_SAMPLE : Nat := 2

def BYTES_PER_SECOND : Nat := SAMPLE_RATE * BYTES_PER_SAMPLE

def CHUNK_DURATION_MS : Nat := 1500

def SENTENCE_MAX_DURATION_MS : Nat := 2500

/-- SENTENCE_MAX_BYTES = int(BYTES_PER_SECOND * SENTENCE_MAX_DURATION_MS / 1000). -/
def SENTENCE_MAX_BYTES : Nat := BYTES_PER_SECOND * SENTENCE_MAX_DURATION_MS / 1000

def SILENCE_DURATION_MS : Nat := 350

def CACHE_TTL_SECONDS : Nat := 10

def MIN_TTS_TEXT_LENGTH : Nat := 2

/-! Voice activity detection: `VADProcessor` of server_v10.py.

The per-frame audio classification (`has_speech`, webrtcvad plus the RMS
fallback) is an opaque analysis of raw audio; its Boolean outcome for a
chunk is an input of the embedded state machine, exactly the shape of
`process_chunk`, which consumes only that Boolean. -/

def frame_duration_ms : Nat := 30

def min_speech_frames : Nat := 3

/-- max_silence_frames = int(Config.SILENCE_DURATION_MS / frame_duration_ms);
Python `int(350 / 30)` truncates, as Nat division does. -/
def max_silence_frames : Nat := SILENCE_DURATION_MS / frame_duration_ms

structure VadState where
  is_speaking : Bool
  silence_frames : Nat
  speech_frames : Nat
deriving DecidableEq, Repr

/-- Initial VAD state set up in `VADProcessor.__init__`. -/
def vadInit : VadState := ⟨false, 0, 0⟩

/-- `VADProcessor.reset`. -/
def vadReset : VadState := ⟨false, 0, 0⟩

/-- `VADProcessor.process_chunk`, returning (new state, has_speech, sentence_end).
`hasSpeech` is the chunk classification computed by `self.has_speech(audio_bytes)`. -/
def processChunk (s : VadState) (hasSpeech : Bool) : VadState × Bool × Bool :=
  if hasSpeech then
    let speech := s.speech_frames + 1
    let speaking := if ¬ s.is_speaking ∧ speech ≥ min_speech_frames then true else s.is_speaking
    (⟨speaking, 0, speech⟩, true, false)
  else
    if s.is_speaking then
      let silence := s.silence_frames + 1
      if silence ≥ max_silence_frames then
        (⟨false, 0, 0⟩, false, true)
      else
        (⟨s.is_speaking, silence, s.speech_frames⟩, false, false)
    else
      (s, false, false)

/-- Run the VAD machine from its initial state over a list of chunk
classifications (one Bool per inbound chunk). -/
def vadRun (inputs : List Bool) : VadState :=
  inputs.foldl (fun s b => (processChunk s b).1) vadInit

lemma silence_bound_step (s : VadState) (b : Bool)
    (h : s.silence_frames + 1 ≤ max_silence_frames) :
    (processChunk s b).1.silence_frames + 1 ≤ max_silence_frames := by
  have hM : max_silence_frames = 11 := rfl
  rw [hM] at h ⊢
  unfold processChunk
  rcases b with _ | _
  · cases hsp : s.is_speaking
    · simpa [hsp] using h
    · simp only [hsp, Bool.false_eq_true, if_false, if_true, hM]
      split_ifs with hge
      · simp
      · simp
        omega
  · simp [hM]

lemma vadRun_silence_bound (inputs : List Bool) :
    (vadRun inputs).silence_frames + 1 ≤ max_silence_frames := by
  suffices h : ∀ s, s.silence_frames + 1 ≤ max_silence_frames →
      (inputs.foldl (fun s b => (processChunk s b).1) s).silence_frames + 1 ≤
        max_silence_frames by
    exact h vadInit (by simp [vadInit, max_silence_frames, SILENCE_DURATION_MS,
      frame_duration_ms])
  induction inputs with
  | nil => intro s hs; simpa using hs
  | cons b bs ih =>
      intro s hs
      exact ih _ (silence_bound_step s b hs)

/-- C5: the VAD state machine fires sentence_end exactly when, in the
Speaking state, a silence-classified chunk brings the silence counter to
`max_silence_frames` = 11; it then returns to Idle with both counters
zero; a speech chunk while Speaking zeroes the silence counter and
returns (true, false); from Idle, Speaking is entered exactly when the
speech counter reaches `min_speech_frames` = 3. -/
theorem C5_vad_state_machine :
    (max_silence_frames = 11 ∧ min_speech_frames = 3) ∧
    (∀ s : VadState, (processChunk s false).2.2 = true ↔
        (s.is_speaking = true ∧ s.silence_frames + 1 ≥ max_silence_frames)) ∧
    (∀ s : VadState, (processChunk s false).2.2 = true →
        processChunk s false = (⟨false, 0, 0⟩, false, true)) ∧
    (∀ inputs : List Bool, (processChunk (vadRun inputs) false).2.2 = true ↔
        ((vadRun inputs).is_speaking = true ∧
          (vadRun inputs).silence_frames + 1 = max_silence_frames)) ∧
    (∀ s : VadState, s.is_speaking = true →
        processChunk s true = (⟨true, 0, s.speech_frames + 1⟩, true, false)) ∧
    (∀ s : VadState, s.is_speaking = false →
        ((processChunk s true).1.is_speaking = true ↔
          s.speech_frames + 1 ≥ min_speech_frames)) := by
  refine ⟨⟨rfl, rfl⟩, ?_, ?_, ?_, ?_, ?_⟩
  · intro s
    by_cases hs : s.is_speaking
    · by_cases hm : s.silence_frames + 1 ≥ max_silence_frames
      · simp [processChunk, hs, hm]
      · simp [processChunk, hs, hm]
    · simp [processChunk, hs]
  · intro s h
    by_cases hs : s.is_speaking
    · by_cases hm : s.silence_frames + 1 ≥ max_silence_frames
      · simp [processChunk, hs, hm]
      · simp [processChunk, hs, hm] at h
    · simp [processChunk, hs] at h
  · intro inputs
    have hb := vadRun_silence_bound inputs
    by_cases hs : (vadRun inputs).is_speaking
    · by_cases hm : (vadRun inputs).silence_frames + 1 ≥ max_silence_frames
      · simp [processChunk, hs, hm]
        omega
      · simp [processChunk, hs, hm]
        omega
    · simp [processChunk, hs]
  · intro s hs
    simp [processChunk, hs]
  · intro s hs
    by_cases hm : s.speech_frames + 1 ≥ min_speech_frames
    · simp [processChunk, hs, hm]
    · simp [processChunk, hs, hm]

/-- Witness for C5 at concrete states: a Speaking state with 10 buffered
silence frames fires sentence_end on the 11th and resets; a Speaking
state on speech zeroes the silence counter; an Idle state with 2 prior
speech frames enters Speaking on the third speech chunk. -/
theorem C5_vad_state_machine_witness :
    processChunk ⟨true, 10, 7⟩ false = (⟨false, 0, 0⟩, false, true) ∧
    processChunk ⟨true, 4, 7⟩ true = (⟨true, 0, 8⟩, true, false) ∧
    (processChunk ⟨false, 0, 2⟩ true).1.is_speaking = true := by
  refine ⟨?_, ?_, ?_⟩
  · exact C5_vad_state_machine.2.2.1 ⟨true, 10, 7⟩ (by decide)
  · exact C5_vad_state_machine.2.2.2.2.1 ⟨true, 4, 7⟩ rfl
  · exact (C5_vad_state_machine.2.2.2.2.2 ⟨false, 0, 2⟩ rfl).mpr (by decide)

/-! Audio ingestion: the audio_chunk branch of `StreamChat`
(server_v10.py lines 1466-1523).  A chunk is abstracted by the two
things the branch extracts from its bytes: the VAD classification of the
chunk (`chunkIsSpeech`, input to `process_chunk`) and the byte length of
`vad.filter_speech(chunk)` (`filteredLen`). -/

inductive ProcessReason where
  | sentence_end
  | buffer_full
deriving DecidableEq, Repr

/-- min_speech_bytes = int(Config.BYTES_PER_SECOND * 0.5). -/
def min_speech_bytes : Nat := BYTES_PER_SECOND / 2

structure IngestState where
  audio_buffer_len : Nat
  vad : VadState
deriving DecidableEq, Repr

/-- The session audio buffer after the chunk's speech audio is appended:
`if has_speech: speech_audio = vad.filter_speech(chunk); if speech_audio:
session_state.audio_buffer.extend(speech_audio)`. -/
def bufferAfterAppend (st : IngestState) (chunkIsSpeech : Bool) (filteredLen : Nat) : Nat :=
  if (processChunk st.vad chunkIsSpeech).2.1 ∧ filteredLen ≠ 0 then
    st.audio_buffer_len + filteredLen
  else st.audio_buffer_len

/-- One audio_chunk step of StreamChat: runs the VAD, appends filtered
speech, decides should_process / process_reason, detaches the buffer and
resets the VAD only on buffer_full.  Returns the new ingest state and,
when a segment is detached, its byte length and the reason. -/
def ingestChunk (st : IngestState) (chunkIsSpeech : Bool) (filteredLen : Nat) :
    IngestState × Option (Nat × ProcessReason) :=
  let vad1 := (processChunk st.vad chunkIsSpeech).1
  let isSentenceEnd := (processChunk st.vad chunkIsSpeech).2.2
  let buf1 := bufferAfterAppend st chunkIsSpeech filteredLen
  if isSentenceEnd ∧ buf1 ≥ min_speech_bytes then
    (⟨0, vad1⟩, some (buf1, ProcessReason.sentence_end))
  else if buf1 ≥ SENTENCE_MAX_BYTES then
    (⟨0, vadReset⟩, some (buf1, ProcessReason.buffer_full))
  else
    (⟨buf1, vad1⟩, none)

/-- C6: with 16000 = 0.5 s and 80000 = SENTENCE_MAX_BYTES, a segment is
detached iff (a) the VAD fired sentence_end and the buffer holds at
least 16000 bytes (reason sentence_end) or (b) otherwise the buffer
holds at least 80000 bytes, the boundary included (reason buffer_full);
the VAD state is overwritten with the reset state exactly in case (b),
and in case (a) it is left as `process_chunk` produced it. -/
theorem C6_segment_detach (st : IngestState) (chunkIsSpeech : Bool) (filteredLen : Nat) :
    (min_speech_bytes = 16000 ∧ SENTENCE_MAX_BYTES = 80000) ∧
    ((ingestChunk st chunkIsSpeech filteredLen).2.isSome = true ↔
      (((processChunk st.vad chunkIsSpeech).2.2 = true ∧
          bufferAfterAppend st chunkIsSpeech filteredLen ≥ min_speech_bytes) ∨
        bufferAfterAppend st chunkIsSpeech filteredLen ≥ SENTENCE_MAX_BYTES)) ∧
    ((ingestChunk st chunkIsSpeech filteredLen).2 =
        some (bufferAfterAppend st chunkIsSpeech filteredLen, ProcessReason.sentence_end) ↔
      ((processChunk st.vad chunkIsSpeech).2.2 = true ∧
        bufferAfterAppend st chunkIsSpeech filteredLen ≥ min_speech_bytes)) ∧
    ((ingestChunk st chunkIsSpeech filteredLen).2 =
        some (bufferAfterAppend st chunkIsSpeech filteredLen, ProcessReason.buffer_full) ↔
      (¬ ((processChunk st.vad chunkIsSpeech).2.2 = true ∧
            bufferAfterAppend st chunkIsSpeech filteredLen ≥ min_speech_bytes) ∧
        bufferAfterAppend st chunkIsSpeech filteredLen ≥ SENTENCE_MAX_BYTES)) ∧
    (∀ n, (ingestChunk st chunkIsSpeech filteredLen).2 = some (n, ProcessReason.buffer_full) →
      (ingestChunk st chunkIsSpeech filteredLen).1 = ⟨0, vadReset⟩) ∧
    (∀ n, (ingestChunk st chunkIsSpeech filteredLen).2 = some (n, ProcessReason.sentence_end) →
      (ingestChunk st chunkIsSpeech filteredLen).1 =
        ⟨0, (processChunk st.vad chunkIsSpeech).1⟩) := by
  refine ⟨⟨rfl, rfl⟩, ?_, ?_, ?_, ?_, ?_⟩ <;>
    · unfold ingestChunk
      by_cases h1 : (processChunk st.vad chunkIsSpeech).2.2 = true ∧
          bufferAfterAppend st chunkIsSpeech filteredLen ≥ min_speech_bytes
      · simp [h1]
      · by_cases h2 : bufferAfterAppend st chunkIsSpeech filteredLen ≥ SENTENCE_MAX_BYTES
        · simp [h1, h2]
        · simp [h1, h2]

/-- Witness for C6: a buffer at exactly 80000 bytes with an idle VAD and a
silent chunk detaches with reason buffer_full and resets the VAD; a
speaking VAD one silence frame from the threshold with a 16000-byte
buffer detaches with reason sentence_end. -/
theorem C6_segment_detach_witness :
    ingestChunk ⟨80000, vadInit⟩ false 0 = (⟨0, vadReset⟩, some (80000, ProcessReason.buffer_full)) ∧
    ingestChunk ⟨16000, ⟨true, 10, 5⟩⟩ false 0 =
      (⟨0, ⟨false, 0, 0⟩⟩, some (16000, ProcessReason.sentence_end)) := by
  have h1 := (C6_segment_detach ⟨80000, vadInit⟩ false 0).2.2.2.2.1 80000
  have h2 := (C6_segment_detach ⟨16000, ⟨true, 10, 5⟩⟩ false 0).2.2.2.2.2 16000
  refine ⟨?_, ?_⟩
  · have hfull : (ingestChunk ⟨80000, vadInit⟩ false 0).2 =
        some (80000, ProcessReason.buffer_full) := by decide
    have := h1 hfull
    rw [Prod.ext_iff]
    exact ⟨this, hfull⟩
  · have hend : (ingestChunk ⟨16000, ⟨true, 10, 5⟩⟩ false 0).2 =
        some (16000, ProcessReason.sentence_end) := by decide
    have := h2 hend
    rw [Prod.ext_iff]
    exact ⟨by simpa [processChunk] using this, hend⟩

/-! Language topology and the primary buffering strategy
(`LanguageTopology` and `SessionState.determine_primary_strategy` of
server_v10.py), and the BufferingStrategy message advertised in the
SessionReady response of the session_init branch of StreamChat. -/

def SOV_LANGUAGES : List String := ["ko", "ja", "tr", "hi", "bn"]

def SVO_LANGUAGES : List String := ["en", "zh", "es", "fr", "de", "pt", "ru", "it"]

def VSO_LANGUAGES : List String := ["ar", "he"]

/-- WORD_ORDER_GROUPS.get(lang, "SVO"): the dict built from the three
language sets, looked up with default "SVO". -/
def wordOrderGroup (lang : String) : String :=
  if SOV_LANGUAGES.contains lang then "SOV"
  else if SVO_LANGUAGES.contains lang then "SVO"
  else if VSO_LANGUAGES.contains lang then "VSO"
  else "SVO"

inductive Strategy where
  | CHUNK_BASED
  | SENTENCE_BASED
deriving DecidableEq, Repr

/-- LanguageTopology.get_strategy. -/
def getStrategy (sourceLang targetLang : String) : Strategy :=
  if wordOrderGroup sourceLang = wordOrderGroup targetLang then Strategy.CHUNK_BASED
  else Strategy.SENTENCE_BASED

structure Participant where
  participant_id : String
  target_language : String
  translation_enabled : Bool
deriving DecidableEq, Repr

structure Speaker where
  participant_id : String
  source_language : String
deriving DecidableEq, Repr

/-- SessionState.get_target_languages: targets of participants with
translation enabled whose target differs from the speaker's source.
The Python set is modelled as a list; only membership matters below. -/
def getTargetLanguages (participants : List Participant) (sourceLang : String) : List String :=
  (participants.filter fun p => p.translation_enabled ∧ p.target_language ≠ sourceLang).map
    (fun p => p.target_language)

/-- SessionState.determine_primary_strategy: returns SENTENCE_BASED on the
first target language whose strategy against the source is
SENTENCE_BASED, else CHUNK_BASED. -/
def determinePrimaryStrategy (participants : List Participant) (sourceLang : String) :
    Strategy :=
  if (getTargetLanguages participants sourceLang).any
      (fun t => getStrategy sourceLang t = Strategy.SENTENCE_BASED) then
    Strategy.SENTENCE_BASED
  else Strategy.CHUNK_BASED

structure BufferingStrategyMsg where
  source_language : String
  primary_target_language : String
  strategy : Strategy
  buffer_size_ms : Nat
deriving DecidableEq, Repr

/-- The BufferingStrategy message of the SessionReady response
(server_v10.py lines 1449-1464): strategy mirrors the primary strategy,
buffer_size_ms is the literal 0. -/
def sessionReadyBuffering (speaker : Speaker) (participants : List Participant) :
    BufferingStrategyMsg :=
  let targetLangs := getTargetLanguages participants speaker.source_language
  { source_language := speaker.source_language
    primary_target_language := targetLangs.headD ""
    strategy := determinePrimaryStrategy participants speaker.source_language
    buffer_size_ms := 0 }

lemma any_sentence_iff (ps : List Participant) (src : String) :
    ((getTargetLanguages ps src).any
        (fun t => getStrategy src t = Strategy.SENTENCE_BASED)) = true ↔
      ∃ p ∈ ps, p.translation_enabled = true ∧ p.target_language ≠ src ∧
        wordOrderGroup src ≠ wordOrderGroup p.target_language := by
  simp only [getTargetLanguages, List.any_eq_true, List.mem_map, List.mem_filter,
    getStrategy]
  constructor
  · rintro ⟨t, ⟨p, ⟨hp, hcond⟩, rfl⟩, hstrat⟩
    have hc := of_decide_eq_true hcond
    refine ⟨p, hp, hc.1, hc.2, ?_⟩
    intro hgroup
    simp [hgroup] at hstrat
  · rintro ⟨p, hp, he, hne, hgroup⟩
    refine ⟨p.target_language, ⟨p, ⟨hp, ?_⟩, rfl⟩, ?_⟩
    · simp [he, hne]
    · simp [hgroup]

/-- C7 counterexample: for a Korean speaker, a single en listener selects
SENTENCE_BASED and a single ja listener selects CHUNK_BASED — two
different selections — yet the buffer-size hint (buffer_size_ms) of the
SessionReady response is 0 in both cases, so the selection does not
determine the advertised buffer-size hint. -/
theorem C7_counterexample :
    determinePrimaryStrategy [⟨"p1", "en", true⟩] "ko" = Strategy.SENTENCE_BASED ∧
    determinePrimaryStrategy [⟨"p2", "ja", true⟩] "ko" = Strategy.CHUNK_BASED ∧
    (sessionReadyBuffering ⟨"s1", "ko"⟩ [⟨"p1", "en", true⟩]).strategy ≠
      (sessionReadyBuffering ⟨"s1", "ko"⟩ [⟨"p2", "ja", true⟩]).strategy ∧
    (sessionReadyBuffering ⟨"s1", "ko"⟩ [⟨"p1", "en", true⟩]).buffer_size_ms = 0 ∧
    (sessionReadyBuffering ⟨"s1", "ko"⟩ [⟨"p2", "ja", true⟩]).buffer_size_ms = 0 := by
  decide

/-- C7 (amended): the primary strategy is SENTENCE_BASED iff some listener
(translation enabled, target different from the source) has a target in
a different word-order group than the speaker's source (unknown
languages defaulting to SVO); the selection determines the `strategy`
field of the advertised BufferingStrategy, while the numeric
buffer_size_ms field is always 0 regardless of the selection. -/
theorem C7_primary_strategy :
    (∀ (ps : List Participant) (src : String),
      determinePrimaryStrategy ps src = Strategy.SENTENCE_BASED ↔
        ∃ p ∈ ps, p.translation_enabled = true ∧ p.target_language ≠ src ∧
          wordOrderGroup src ≠ wordOrderGroup p.target_language) ∧
    (∀ (sp : Speaker) (ps : List Participant),
      (sessionReadyBuffering sp ps).strategy =
          determinePrimaryStrategy ps sp.source_language ∧
        (sessionReadyBuffering sp ps).buffer_size_ms = 0) := by
  constructor
  · intro ps src
    rw [← any_sentence_iff ps src]
    unfold determinePrimaryStrategy
    split_ifs with h
    · simpa using h
    · simpa using h
  · intro sp ps
    exact ⟨rfl, rfl⟩

/-! Text processing: Python `str` values inspected character-wise are
modelled as `List Char`; `lower()`, `strip()`, `split()` and the `in`
substring test are implemented below with Python semantics. -/

def pyIsSpace (c : Char) : Bool := c = ' ' ∨ c = '\t' ∨ c = '\n' ∨ c = '\r'

def splitWSAux : List Char → List Char → List (List Char)
  | [], acc => if acc = [] then [] else [acc.reverse]
  | c :: rest, acc =>
    if pyIsSpace c then
      if acc = [] then splitWSAux rest []
      else acc.reverse :: splitWSAux rest []
    else splitWSAux rest (c :: acc)

/-- Python text.split(): split on whitespace runs, no empty tokens. -/
def pySplitTokens (l : List Char) : List (List Char) := splitWSAux l []

/-- Python text.strip(). -/
def pyStrip (l : List Char) : List Char :=
  ((l.dropWhile pyIsSpace).reverse.dropWhile pyIsSpace).reverse

/-- Python text.lower() (ASCII case folding; the Korean / Japanese /
Chinese characters of the pattern tables are unaffected by lower()). -/
def pyLower (l : List Char) : List Char := l.map Char.toLower

/-- Python text.lower().strip(), the normalisation both filters apply. -/
def lowerStrip (text : List Char) : List Char := pyStrip (pyLower text)

def startsWithL : List Char → List Char → Bool
  | _, [] => true
  | [], _ :: _ => false
  | a :: as, b :: bs => decide (a = b) && startsWithL as bs

/-- Python `pat in hay` substring test. -/
def containsSubL : List Char → List Char → Bool
  | [], pat => startsWithL [] pat
  | a :: t, pat => startsWithL (a :: t) pat || containsSubL t pat

/-- Config.AUDIO_ARTIFACT_PATTERNS (config/settings.py). -/
def AUDIO_ARTIFACT_PATTERNS : List (List Char) :=
  ["[음악]".data, "[音楽]".data, "[music]".data, "[applause]".data, "[laughter]".data,
   "[박수]".data, "[웃음]".data, "♪".data, "♫".data, "...".data, "…".data]

/-- Config.HALLUCINATION_PATTERNS (inline Config of server_v10.py). -/
def HALLUCINATION_PATTERNS : List (List Char) :=
  ["감사합니다".data, "시청해 주셔서 감사합니다".data, "한글자막 by".data, "자막 by".data,
   "자막 제공".data, "구독과 좋아요".data, "mbc 뉴스".data, "kbs 뉴스".data, "sbs 뉴스".data,
   "이덕영입니다".data, "끝".data,
   "thank you".data, "thanks for watching".data, "thanks for listening".data,
   "subscribe".data, "please subscribe".data, "like and subscribe".data,
   "see you next time".data, "bye".data, "goodbye".data, "the end".data,
   "subtitles by".data, "captions by".data, "translated by".data,
   "ありがとうございました".data, "ご視聴ありがとう".data, "字幕".data,
   "谢谢".data, "谢谢观看".data, "感谢收看".data, "字幕".data,
   "...".data, "…".data, "♪".data, "♫".data,
   "[音楽]".data, "[music]".data, "[applause]".data, "[laughter]".data]

/-- Config.FILLER_WORDS (identical in config/settings.py and server_v10.py). -/
def FILLER_WORDS : List (List Char) :=
  ["네".data, "예".data, "응".data, "음".data, "어".data, "아".data, "으".data, "흠".data,
   "뭐".data, "그".data, "저".data,
   "아아".data, "어어".data, "음음".data, "네네".data, "예예".data, "그래".data, "응응".data,
   "uh".data, "um".data, "ah".data, "oh".data, "hmm".data, "yeah".data, "yes".data,
   "no".data, "ok".data, "okay".data,
   "well".data, "so".data, "like".data, "you know".data, "i mean".data,
   "あ".data, "え".data, "う".data, "ん".data, "はい".data, "うん".data, "ええ".data,
   "まあ".data,
   "嗯".data, "啊".data, "哦".data, "呃".data, "好".data, "是".data]

/-! The five repetition rules of models/stt.py `_is_audio_artifact`.
Rule numbering follows the comments in the source. -/

/-- Rule 1: at least 5 tokens, all identical (len(set(words)) == 1). -/
def ruleIdenticalTokens (words : List (List Char)) : Bool :=
  decide (words.length ≥ 5) && decide (words.dedup.length = 1)

/-- Rule 2: the nested checks `len(words) >= 4` then
`len(unique_words) <= 2 and len(words) >= 6`. -/
def ruleTwoWordPattern (words : List (List Char)) : Bool :=
  decide (words.length ≥ 4) &&
    (decide (words.dedup.length ≤ 2) && decide (words.length ≥ 6))

/-- Largest index k such that l[k] = l[k+1] = '.' (the backtracking target
of the greedy \S+ of re.findall(r'(\S+)\.\.+', ...)). -/
def lastDoubleDot : List Char → Option Nat
  | c1 :: c2 :: rest =>
    match lastDoubleDot (c2 :: rest) with
    | some j => some (j + 1)
    | none => if c1 = '.' ∧ c2 = '.' then some 0 else none
  | _ => none

/-- The capture of the unique possible `(\S+)\.\.+` match inside one
maximal non-whitespace run: greedy backtracking puts the two mandatory
dots at the last double-dot position k of the run and captures the run's
prefix of length k, which must be nonempty; the following `\.+` then
swallows the maximal dot block from k, after which the rest of the run
contains no further double dot, so at most one match arises per run. -/
def dotCapture (run : List Char) : Option (List Char) :=
  match lastDoubleDot run with
  | some k => if k ≥ 1 then some (run.take k) else none
  | none => none

/-- re.findall(r'(\S+)\.\.+', text_lower): since neither \S+ nor the dots
can span whitespace, the matches are exactly the per-run captures over
the maximal non-whitespace runs (= the split() tokens). -/
def dotPattern (text_lower : List Char) : List (List Char) :=
  (pySplitTokens text_lower).filterMap dotCapture

/-- Rule 3: at least 3 dot-suffixed tokens, all with the same stem. -/
def ruleDotRepeat (text_lower : List Char) : Bool :=
  decide ((dotPattern text_lower).length ≥ 3) &&
    decide ((dotPattern text_lower).dedup.length = 1)

/-- The characters rules 4 and 5 count: everything except space and dot
(`if char not in ' .'`). -/
def countedChars (text_lower : List Char) : List Char :=
  text_lower.filter (fun c => c ≠ ' ' ∧ c ≠ '.')

/-- Rule 4: text length at least 10 and one counted character above 60%
of the counted characters (`max_count / total_chars > 0.6` embedded as
the exact comparison 10 * max_count > 6 * total_chars). -/
def ruleDominantChar (text_lower : List Char) : Bool :=
  decide (text_lower.length ≥ 10) &&
    (decide ((countedChars text_lower).length ≥ 1) &&
      decide (10 * (((countedChars text_lower).dedup.map
          (fun c => (countedChars text_lower).count c)).foldr max 0) >
        6 * (countedChars text_lower).length))

/-- Rule 5: text length at least 50 with at most 3 unique characters
after removing spaces and dots. -/
def ruleFewUniqueChars (text_lower : List Char) : Bool :=
  decide (text_lower.length ≥ 50) && decide ((countedChars text_lower).dedup.length ≤ 3)

/-- models/stt.py `_is_audio_artifact`: exact artifact-pattern match or
any of the five repetition rules on text.lower().strip(). -/
def isAudioArtifact (text : List Char) : Bool :=
  if text = [] then false
  else if AUDIO_ARTIFACT_PATTERNS.contains (lowerStrip text) then true
  else if ruleIdenticalTokens (pySplitTokens (lowerStrip text)) then true
  else if ruleTwoWordPattern (pySplitTokens (lowerStrip text)) then true
  else if ruleDotRepeat (lowerStrip text) then true
  else if ruleDominantChar (lowerStrip text) then true
  else if ruleFewUniqueChars (lowerStrip text) then true
  else false

/-- server_v10.py `ModelManager._is_hallucination`: exact pattern match,
pattern-substring match, then the repetition checks guarded by
`len(words) >= 3`: all words identical, or more than 70% of the words of
length at most 1 (`short_words / len(words) > 0.7` embedded as the exact
comparison 10 * short_words > 7 * len(words)). -/
def isHallucinationV10 (text : List Char) : Bool :=
  if text = [] then false
  else if HALLUCINATION_PATTERNS.contains (lowerStrip text) then true
  else if HALLUCINATION_PATTERNS.any
      (fun p => containsSubL (lowerStrip text) p) then true
  else if decide ((pySplitTokens (lowerStrip text)).length ≥ 3) then
    if decide ((pySplitTokens (lowerStrip text)).dedup.length = 1) then true
    else if decide (10 * ((pySplitTokens (lowerStrip text)).filter
        (fun w => w.length ≤ 1)).length > 7 * (pySplitTokens (lowerStrip text)).length)
      then true
    else false
  else false

/-- C8 counterexample: the server_v10 repetition filter
`ModelManager._is_hallucination` drops the transcription "a a a a",
which consists of exactly 4 identical whitespace-separated tokens, even
though none of the rules (ii)-(v) applies to it (the stt.py filter
`_is_audio_artifact`, which implements those rules, keeps it). -/
theorem C8_counterexample :
    isHallucinationV10 "a a a a".data = true ∧
    pySplitTokens (lowerStrip "a a a a".data) =
      ["a".data, "a".data, "a".data, "a".data] ∧
    ruleTwoWordPattern (pySplitTokens (lowerStrip "a a a a".data)) = false ∧
    ruleDotRepeat (lowerStrip "a a a a".data) = false ∧
    ruleDominantChar (lowerStrip "a a a a".data) = false ∧
    ruleFewUniqueChars (lowerStrip "a a a a".data) = false ∧
    isAudioArtifact "a a a a".data = false := by decide

lemma tokens_of_nil : pySplitTokens (lowerStrip ([] : List Char)) = [] := by decide

/-- C8 (amended): the stt.py filter `_is_audio_artifact` drops every
transcription of at least 5 identical whitespace-separated tokens and
keeps one of exactly 4 identical tokens when no other rule (artifact
pattern, (iii), (iv), (v); (ii) cannot apply to 4 tokens) applies; but
the server_v10 filter `ModelManager._is_hallucination` already drops
every transcription of at least 3 identical tokens, so 4 identical
tokens are dropped on the server_v10 Whisper path. -/
theorem C8_repetition_filter :
    (∀ text : List Char,
      (pySplitTokens (lowerStrip text)).length ≥ 5 →
      (pySplitTokens (lowerStrip text)).dedup.length = 1 →
      isAudioArtifact text = true) ∧
    (∀ text : List Char,
      (pySplitTokens (lowerStrip text)).length = 4 →
      (pySplitTokens (lowerStrip text)).dedup.length = 1 →
      AUDIO_ARTIFACT_PATTERNS.contains (lowerStrip text) = false →
      ruleDotRepeat (lowerStrip text) = false →
      ruleDominantChar (lowerStrip text) = false →
      ruleFewUniqueChars (lowerStrip text) = false →
      isAudioArtifact text = false) ∧
    (∀ text : List Char,
      (pySplitTokens (lowerStrip text)).length ≥ 3 →
      (pySplitTokens (lowerStrip text)).dedup.length = 1 →
      isHallucinationV10 text = true) := by
  refine ⟨?_, ?_, ?_⟩
  · intro text h5 h1
    by_cases h0 : text = []
    · rw [h0, tokens_of_nil] at h5
      simp at h5
    · unfold isAudioArtifact
      rw [if_neg h0]
      have hr : ruleIdenticalTokens (pySplitTokens (lowerStrip text)) = true := by
        unfold ruleIdenticalTokens
        rw [decide_eq_true h5, decide_eq_true h1]
        rfl
      split_ifs <;> simp_all
  · intro text h4 h1 hpat hr3 hr4 hr5
    have h0 : text ≠ [] := by
      intro h0
      rw [h0, tokens_of_nil] at h4
      simp at h4
    have hr1 : ruleIdenticalTokens (pySplitTokens (lowerStrip text)) = false := by
      unfold ruleIdenticalTokens
      rw [decide_eq_false (by omega : ¬ (pySplitTokens (lowerStrip text)).length ≥ 5)]
      rfl
    have hr2 : ruleTwoWordPattern (pySplitTokens (lowerStrip text)) = false := by
      unfold ruleTwoWordPattern
      rw [decide_eq_false (by omega : ¬ (pySplitTokens (lowerStrip text)).length ≥ 6)]
      simp
    unfold isAudioArtifact
    rw [if_neg h0, hpat, hr1, hr2, hr3, hr4, hr5]
    rfl
  · intro text h3 h1
    by_cases h0 : text = []
    · rw [h0, tokens_of_nil] at h3
      simp at h3
    · unfold isHallucinationV10
      rw [if_neg h0, decide_eq_true h3, decide_eq_true h1]
      split_ifs <;> simp_all

/-- Witness for C8 (amended), applying the three parts at concrete texts:
5 identical Korean filler tokens are dropped by the stt.py filter, the
4-identical-token text "hey hey hey hey" is kept by it, and 3 identical
tokens are already dropped by the server_v10 filter. -/
theorem C8_repetition_filter_witness :
    isAudioArtifact "음 음 음 음 음".data = true ∧
    isAudioArtifact "hey hey hey hey".data = false ∧
    isHallucinationV10 "음 음 음".data = true := by
  refine ⟨?_, ?_, ?_⟩
  · exact C8_repetition_filter.1 "음 음 음 음 음".data (by decide) (by decide)
  · exact C8_repetition_filter.2.1 "hey hey hey hey".data (by decide) (by decide)
      (by decide) (by decide) (by decide) (by decide)
  · exact C8_repetition_filter.2.2 "음 음 음".data (by decide) (by decide)

/-! Per-utterance pipeline: `_process_audio` of server_v10.py and
`process_audio_parallel` of services/room_processor.py.  The opaque
engines behind the caches are oracles: `translateRes text src tgt` is
the value `get_or_create_translation` hands back (computed or cached,
empty on failure/timeout) and `ttsRes text lang` likewise for
`get_or_create_tts` (empty bytes on failure).  transcript_id
(`str(uuid.uuid4())[:8]`) is an opaque parameter.  Pass-through metadata
(confidence, timestamp_ms, speaker info, format, sample_rate) inspected
nowhere in the claims is elided from the response messages. -/

structure TranslationEntry where
  target_language : String
  translated_text : List Char
  target_participant_ids : List String
deriving DecidableEq, Repr

inductive Response where
  | status (session_id room_id : String) (buffering : BufferingStrategyMsg)
  | transcript (session_id room_id : String) (id : String)
      (original_text : List Char) (translations : List TranslationEntry)
      ( is_partial is_final : Bool)
  | audio (session_id room_id : String) (transcript_id target_language : String)
      (target_participant_ids : List String) (audio_data : List Char)
      (duration_ms : Nat)
  | error (code message : String)
deriving DecidableEq, Repr

/-- SessionState.get_participants_by_target_language. -/
def getParticipantsByTargetLanguage (participants : List Participant)
    (targetLang : String) : List String :=
  (participants.filter fun p => p.translation_enabled ∧ p.target_language = targetLang).map
    (fun p => p.participant_id)

/-- The filler check of _process_audio:
`original_text.lower().strip() in FILLER_WORDS or original_text.strip()
in FILLER_WORDS`. -/
def isFillerText (text : List Char) : Bool :=
  FILLER_WORDS.contains (lowerStrip text) || FILLER_WORDS.contains (pyStrip text)

/-- The STEP 2 translation loop of _process_audio: one
`get_or_create_translation` per active target language, keeping the
nonempty results with their per-language participant id lists. -/
def translationsV10 (speaker : Speaker) (participants : List Participant)
    (text : List Char) (translateRes : List Char → String → String → List Char) :
    List TranslationEntry :=
  (getTargetLanguages participants speaker.source_language).filterMap (fun t =>
    let translated := translateRes text speaker.source_language t
    if translated ≠ [] then
      some ⟨t, translated, getParticipantsByTargetLanguage participants t⟩
    else none)

/-- The STEP 3 TTS loop of _process_audio: per kept translation, skip the
too-short and filler texts, call `get_or_create_tts`, and emit an
AudioResult bound to the utterance's transcript_id when the audio bytes
are nonempty. -/
def ttsEmitsV10 (sessionId roomId transcriptId : String)
    (translations : List TranslationEntry)
    (ttsRes : List Char → String → List Char × Nat) : List Response :=
  translations.filterMap (fun tr =>
    if (pyStrip tr.translated_text).length < MIN_TTS_TEXT_LENGTH then none
    else if isFillerText tr.translated_text then none
    else if (ttsRes tr.translated_text tr.target_language).1 ≠ [] then
      some (Response.audio sessionId roomId transcriptId tr.target_language
        tr.target_participant_ids (ttsRes tr.translated_text tr.target_language).1
        (ttsRes tr.translated_text tr.target_language).2)
    else none)

/-- server_v10.py `_process_audio` as the list of responses it yields, in
yield order: nothing on empty STT text; a lone final transcript on a
filler or a stripped length of at most 1; otherwise the transcript with
its translations followed by the TTS audio responses. -/
def processAudioV10 (sessionId roomId : String) (speaker : Speaker)
    (participants : List Participant) (transcriptId : String) (isFinal : Bool)
    (sttText : List Char)
    (translateRes : List Char → String → String → List Char)
    (ttsRes : List Char → String → List Char × Nat) : List Response :=
  if sttText = [] then []
  else if isFillerText sttText then
    [Response.transcript sessionId roomId transcriptId sttText [] false true]
  else if (pyStrip sttText).length ≤ 1 then
    [Response.transcript sessionId roomId transcriptId sttText [] false true]
  else
    let translations := translationsV10 speaker participants sttText translateRes
    Response.transcript sessionId roomId transcriptId sttText translations
        (! isFinal) isFinal ::
      ttsEmitsV10 sessionId roomId transcriptId translations ttsRes

/-- RoomProcessor.translate_parallel: empty on no targets or stripped
length at most 1, else one translation task per target keeping nonempty
results.  Completion order of the pool futures is abstracted as
submission order; no claim below depends on the order within the
translation list. -/
def translateParallel (text : List Char) (sourceLang : String)
    (targets : List String) (getParticipantsFn : String → List String)
    (translateRes : List Char → String → String → List Char) :
    List TranslationEntry :=
  if targets = [] ∨ (pyStrip text).length ≤ 1 then []
  else targets.filterMap (fun t =>
    let translated := translateRes text sourceLang t
    if translated ≠ [] then some ⟨t, translated, getParticipantsFn t⟩ else none)

/-- RoomProcessor.synthesize_parallel: filter the TTS candidates, one TTS
task per candidate, keep nonempty audio. -/
def synthesizeParallel (translations : List TranslationEntry)
    (ttsRes : List Char → String → List Char × Nat) :
    List (TranslationEntry × List Char × Nat) :=
  (translations.filter (fun t =>
      decide ((pyStrip t.translated_text).length ≥ MIN_TTS_TEXT_LENGTH) &&
        !FILLER_WORDS.contains (lowerStrip t.translated_text) &&
        !FILLER_WORDS.contains (pyStrip t.translated_text))).filterMap (fun t =>
    let res := ttsRes t.translated_text t.target_language
    if res.1 ≠ [] then some (t, res) else none)

/-- services/room_processor.py `process_audio_parallel` as the list of
responses it yields, in yield order. -/
def processAudioParallel (sessionId roomId : String) (speaker : Speaker)
    (participants : List Participant) (transcriptId : String) (isFinal : Bool)
    (sttText : List Char)
    (translateRes : List Char → String → String → List Char)
    (ttsRes : List Char → String → List Char × Nat) : List Response :=
  if sttText = [] then []
  else if isFillerText sttText then
    [Response.transcript sessionId roomId transcriptId sttText [] false true]
  else
    let translations := translateParallel sttText speaker.source_language
      (getTargetLanguages participants speaker.source_language)
      (getParticipantsByTargetLanguage participants) translateRes
    Response.transcript sessionId roomId transcriptId sttText translations
        (! isFinal) isFinal ::
      (synthesizeParallel translations ttsRes).map (fun tr =>
        Response.audio sessionId roomId transcriptId tr.1.target_language
          tr.1.target_participant_ids tr.2.1 tr.2.2)

lemma mem_ttsEmitsV10 (sid rid tid : String) (tl : List TranslationEntry)
    (ttsF : List Char → String → List Char × Nat) (r : Response)
    (hr : r ∈ ttsEmitsV10 sid rid tid tl ttsF) :
    ∃ lang pids ad d, r = Response.audio sid rid tid lang pids ad d := by
  rw [ttsEmitsV10, List.mem_filterMap] at hr
  obtain ⟨a, -, ha⟩ := hr
  split_ifs at ha with h1 h2 h3
  · exact ⟨_, _, _, _, (Option.some.inj ha).symm⟩

lemma mem_audioEmitsParallel (sid rid tid : String) (tl : List TranslationEntry)
    (ttsF : List Char → String → List Char × Nat) (r : Response)
    (hr : r ∈ (synthesizeParallel tl ttsF).map (fun tr =>
      Response.audio sid rid tid tr.1.target_language
        tr.1.target_participant_ids tr.2.1 tr.2.2)) :
    ∃ lang pids ad d, r = Response.audio sid rid tid lang pids ad d := by
  rw [List.mem_map] at hr
  obtain ⟨a, -, ha⟩ := hr
  exact ⟨_, _, _, _, ha.symm⟩

/-- C4: both pipelines yield either nothing, or a single TranscriptResult
strictly before every AudioResult of the utterance, with every
AudioResult carrying transcript_id equal to that transcript's id. -/
theorem C4_transcript_before_audio (sid rid : String) (sp : Speaker)
    (ps : List Participant) (tid : String) (fin : Bool) (text : List Char)
    (trF : List Char → String → String → List Char)
    (ttsF : List Char → String → List Char × Nat) :
    (processAudioV10 sid rid sp ps tid fin text trF ttsF = [] ∨
      ∃ tl ip fn rest,
        processAudioV10 sid rid sp ps tid fin text trF ttsF =
          Response.transcript sid rid tid text tl ip fn :: rest ∧
        ∀ r ∈ rest, ∃ lang pids ad d,
          r = Response.audio sid rid tid lang pids ad d) ∧
    (processAudioParallel sid rid sp ps tid fin text trF ttsF = [] ∨
      ∃ tl ip fn rest,
        processAudioParallel sid rid sp ps tid fin text trF ttsF =
          Response.transcript sid rid tid text tl ip fn :: rest ∧
        ∀ r ∈ rest, ∃ lang pids ad d,
          r = Response.audio sid rid tid lang pids ad d) := by
  constructor
  · unfold processAudioV10
    split_ifs with h0 h1 h2
    · exact Or.inl rfl
    · exact Or.inr ⟨[], false, true, [], rfl, by simp⟩
    · exact Or.inr ⟨[], false, true, [], rfl, by simp⟩
    · exact Or.inr ⟨_, _, _, _, rfl, fun r hr => mem_ttsEmitsV10 _ _ _ _ _ r hr⟩
  · unfold processAudioParallel
    split_ifs with h0 h1
    · exact Or.inl rfl
    · exact Or.inr ⟨[], false, true, [], rfl, by simp⟩
    · exact Or.inr ⟨_, _, _, _, rfl, fun r hr => mem_audioEmitsParallel _ _ _ _ _ r hr⟩

/-- Witness for C4 at a concrete utterance: a Korean speaker, one English
listener, the utterance transcribed, translated and synthesized by
concrete oracles. -/
theorem C4_transcript_before_audio_witness :
    (processAudioV10 "s" "r" ⟨"sp", "ko"⟩ [⟨"p1", "en", true⟩] "t1" true
        "안녕하세요".data (fun _ _ _ => "hello".data) (fun _ _ => ("m".data, 5)) = [] ∨
      ∃ tl ip fn rest,
        processAudioV10 "s" "r" ⟨"sp", "ko"⟩ [⟨"p1", "en", true⟩] "t1" true
            "안녕하세요".data (fun _ _ _ => "hello".data) (fun _ _ => ("m".data, 5)) =
          Response.transcript "s" "r" "t1" "안녕하세요".data tl ip fn :: rest ∧
        ∀ r ∈ rest, ∃ lang pids ad d,
          r = Response.audio "s" "r" "t1" lang pids ad d) ∧
    (processAudioParallel "s" "r" ⟨"sp", "ko"⟩ [⟨"p1", "en", true⟩] "t1" true
        "안녕하세요".data (fun _ _ _ => "hello".data) (fun _ _ => ("m".data, 5)) = [] ∨
      ∃ tl ip fn rest,
        processAudioParallel "s" "r" ⟨"sp", "ko"⟩ [⟨"p1", "en", true⟩] "t1" true
            "안녕하세요".data (fun _ _ _ => "hello".data) (fun _ _ => ("m".data, 5)) =
          Response.transcript "s" "r" "t1" "안녕하세요".data tl ip fn :: rest ∧
        ∀ r ∈ rest, ∃ lang pids ad d,
          r = Response.audio "s" "r" "t1" lang pids ad d) :=
  C4_transcript_before_audio "s" "r" ⟨"sp", "ko"⟩ [⟨"p1", "en", true⟩] "t1" true
    "안녕하세요".data (fun _ _ _ => "hello".data) (fun _ _ => ("m".data, 5))

/-! The StreamChat request dispatch (server_v10.py lines 1391-1569): one
step of the `for request in request_iterator` loop, as a function of the
optional local `session_state` and the request payload. -/

inductive Request where
  | session_init (speaker : Speaker) (participants : List Participant)
  | audio_chunk (chunkIsSpeech : Bool) (filteredLen : Nat)
  | session_end
deriving Repr

structure SessionSt where
  session_id : String
  room_id : String
  speaker : Speaker
  participants : List Participant
  audio_buffer_len : Nat
  vad : VadState
  primary_strategy : Strategy
deriving Repr

/-- Oracle bundle for one dispatch step: the STT text the room cache
returns for a detached segment, the fresh transcript id, and the
translation / TTS outcomes. -/
structure PipelineEnv where
  stt_text : List Char
  transcript_id : String
  translateRes : List Char → String → String → List Char
  ttsRes : List Char → String → List Char × Nat

/-- One iteration of the StreamChat loop body.  session_init builds and
registers the session and emits the SessionReady status; audio_chunk
with a live session ingests the chunk and, when a segment detaches, runs
`_process_audio` with is_final=True; an audio_chunk with no session
falls through the `elif` guard emitting nothing and touching nothing;
session_end flushes a residual buffer of at least 0.3 s (9600 bytes) as
a final segment and drops the session. -/
def streamStep (env : PipelineEnv) (sid rid : String) :
    Option SessionSt → Request → Option SessionSt × List Response
  | _, Request.session_init sp ps =>
    (some ⟨sid, rid, sp, ps, 0, vadInit,
        determinePrimaryStrategy ps sp.source_language⟩,
      [Response.status sid rid (sessionReadyBuffering sp ps)])
  | some st, Request.audio_chunk cs fl =>
    let r := ingestChunk ⟨st.audio_buffer_len, st.vad⟩ cs fl
    match r.2 with
    | some _ =>
      (some { st with audio_buffer_len := r.1.audio_buffer_len, vad := r.1.vad },
        processAudioV10 st.session_id st.room_id st.speaker st.participants
          env.transcript_id true env.stt_text env.translateRes env.ttsRes)
    | none =>
      (some { st with audio_buffer_len := r.1.audio_buffer_len, vad := r.1.vad }, [])
  | none, Request.audio_chunk _ _ => (none, [])
  | some st, Request.session_end =>
    if st.audio_buffer_len ≥ BYTES_PER_SECOND * 3 / 10 then
      (none, processAudioV10 st.session_id st.room_id st.speaker st.participants
        env.transcript_id true env.stt_text env.translateRes env.ttsRes)
    else (none, [])
  | none, Request.session_end => (none, [])

/-- A response is compatible with the no-partial-transcript invariant:
either it is not a transcript, or its flags are is_partial=false,
is_final=true. -/
def transcriptFlagsOk : Response → Bool
  | Response.transcript _ _ _ _ _ ip fn => !ip && fn
  | _ => true

lemma processAudioV10_final_flags (sid rid : String) (sp : Speaker)
    (ps : List Participant) (tid : String) (text : List Char)
    (trF : List Char → String → String → List Char)
    (ttsF : List Char → String → List Char × Nat) :
    ∀ r ∈ processAudioV10 sid rid sp ps tid true text trF ttsF,
      transcriptFlagsOk r = true := by
  intro r hr
  unfold processAudioV10 at hr
  split_ifs at hr with h0 h1 h2
  · simp at hr
  · simp at hr
    simp [hr, transcriptFlagsOk]
  · simp at hr
    simp [hr, transcriptFlagsOk]
  · rw [List.mem_cons] at hr
    rcases hr with hr | hr
    · simp [hr, transcriptFlagsOk]
    · obtain ⟨lang, pids, ad, d, rfl⟩ := mem_ttsEmitsV10 _ _ _ _ _ r hr
      rfl

/-- C9: every TranscriptResult emitted by any StreamChat dispatch step has
is_final = true and is_partial = false — the segment-processing call
sites pass is_final=True and the filler / short-text paths hard-code the
flags — so no partial transcript ever reaches the stream. -/
theorem C9_transcripts_always_final (env : PipelineEnv) (sid rid : String)
    (sess : Option SessionSt) (req : Request) :
    ∀ r ∈ (streamStep env sid rid sess req).2, transcriptFlagsOk r = true := by
  intro r hr
  match sess, req with
  | sess, Request.session_init sp ps =>
    simp only [streamStep, List.mem_singleton] at hr
    simp [hr, transcriptFlagsOk]
  | some st, Request.audio_chunk cs fl =>
    simp only [streamStep] at hr
    rcases hm : (ingestChunk ⟨st.audio_buffer_len, st.vad⟩ cs fl).2 with - | v
    · rw [hm] at hr
      simp at hr
    · rw [hm] at hr
      exact processAudioV10_final_flags _ _ _ _ _ _ _ _ r hr
  | none, Request.audio_chunk cs fl =>
    simp only [streamStep, List.not_mem_nil] at hr
  | some st, Request.session_end =>
    simp only [streamStep] at hr
    split_ifs at hr with hb
    · exact processAudioV10_final_flags _ _ _ _ _ _ _ _ r hr
    · simp at hr
  | none, Request.session_end =>
    simp only [streamStep, List.not_mem_nil] at hr

/-- Witness for C9: the transcript emitted for a concrete flushed segment
("안녕하세요", session_end with a 16000-byte buffer) carries
is_partial=false, is_final=true. -/
theorem C9_transcripts_always_final_witness :
    transcriptFlagsOk (Response.transcript "s" "r" "t1" "안녕하세요".data
      [⟨"en", "hello".data, ["p1"]⟩] false true) = true := by
  refine C9_transcripts_always_final
    ⟨"안녕하세요".data, "t1", fun _ _ _ => "hello".data, fun _ _ => ("m".data, 5)⟩
    "s" "r"
    (some ⟨"s", "r", ⟨"sp", "ko"⟩, [⟨"p1", "en", true⟩], 16000, vadInit,
      Strategy.SENTENCE_BASED⟩)
    Request.session_end
    (Response.transcript "s" "r" "t1" "안녕하세요".data
      [⟨"en", "hello".data, ["p1"]⟩] false true) ?_
  simp only [streamStep]
  rw [if_pos (by decide)]
  decide

/-- C10: an audio_chunk arriving before any session_init on the stream is
silently ignored: the dispatch step emits no response of any kind and
leaves the (absent) session state untouched. -/
theorem C10_audio_chunk_without_session (env : PipelineEnv) (sid rid : String)
    (cs : Bool) (fl : Nat) :
    streamStep env sid rid none (Request.audio_chunk cs fl) = (none, []) := rfl

/-! Cache keys and the sequential (single-caller) behaviour of
get_or_create_translation / get_or_create_tts, in both implementations:
the room-scoped one of cache/room_cache.py and the inline one of
server_v10.py, whose keys omit room_id.  `str(hash(text))` — Python's
process-local deterministic hash rendered into the f-string — is the
opaque parameter `textHash`; the Python dict is an association list in
which assignment prepends and lookup takes the newest binding. -/

structure CacheEntryF (α : Type) where
  value : α
  created_at : Nat
deriving Repr

/-- CacheEntry.is_expired: time.time() - created_at > ttl, with the
default ttl Config.CACHE_TTL_SECONDS. -/
def CacheEntryF.isExpired {α : Type} (e : CacheEntryF α) (now : Nat) : Bool :=
  decide (now - e.created_at > CACHE_TTL_SECONDS)

def lookupC {α : Type} (cache : List (String × CacheEntryF α)) (k : String) :
    Option (CacheEntryF α) :=
  (cache.find? (fun kv => kv.1 == k)).map (fun kv => kv.2)

/-- Dict assignment `cache[key] = entry`, modelled by prepending (lookup
returns the newest binding). -/
def insertC {α : Type} (cache : List (String × CacheEntryF α)) (k : String)
    (e : CacheEntryF α) : List (String × CacheEntryF α) :=
  (k, e) :: cache

/-- cache/room_cache.py: f"{room_id}:{source_lang}:{target_lang}:{hash(text)}". -/
def translationKeyRoom (roomId sourceLang targetLang textHash : String) : String :=
  roomId ++ ":" ++ sourceLang ++ ":" ++ targetLang ++ ":" ++ textHash

/-- cache/room_cache.py: f"{room_id}:tts:{target_lang}:{hash(text)}". -/
def ttsKeyRoom (roomId targetLang textHash : String) : String :=
  roomId ++ ":tts:" ++ targetLang ++ ":" ++ textHash

/-- server_v10.py inline RoomCacheManager:
f"{source_lang}:{target_lang}:{hash(text)}" — no room component. -/
def translationKeyV10 (sourceLang targetLang textHash : String) : String :=
  sourceLang ++ ":" ++ targetLang ++ ":" ++ textHash

/-- server_v10.py inline RoomCacheManager: f"tts:{target_lang}:{hash(text)}". -/
def ttsKeyV10 (targetLang textHash : String) : String :=
  "tts:" ++ targetLang ++ ":" ++ textHash

/-- cache/room_cache.py get_or_create_translation for one caller: a live
entry under the key is returned with was_cached=true; otherwise
translate_fn runs and its result is stored.  Returns
(translated_text, was_cached, cache after the call). -/
def getOrCreateTranslationRoom (cache : List (String × CacheEntryF (List Char)))
    (now : Nat) (roomId : String) (text : List Char) (sourceLang targetLang : String)
    (pyHash : List Char → String)
    (translateFn : List Char → String → String → List Char) :
    List Char × Bool × List (String × CacheEntryF (List Char)) :=
  match lookupC cache (translationKeyRoom roomId sourceLang targetLang (pyHash text)) with
  | some e =>
    if e.isExpired now = false then (e.value, true, cache)
    else (translateFn text sourceLang targetLang, false,
      insertC cache (translationKeyRoom roomId sourceLang targetLang (pyHash text))
        ⟨translateFn text sourceLang targetLang, now⟩)
  | none => (translateFn text sourceLang targetLang, false,
      insertC cache (translationKeyRoom roomId sourceLang targetLang (pyHash text))
        ⟨translateFn text sourceLang targetLang, now⟩)

/-- server_v10.py get_or_create_translation — identical logic but the key
has no room_id and the call site (`_process_audio` STEP 2) passes none. -/
def getOrCreateTranslationV10 (cache : List (String × CacheEntryF (List Char)))
    (now : Nat) (text : List Char) (sourceLang targetLang : String)
    (pyHash : List Char → String)
    (translateFn : List Char → String → String → List Char) :
    List Char × Bool × List (String × CacheEntryF (List Char)) :=
  match lookupC cache (translationKeyV10 sourceLang targetLang (pyHash text)) with
  | some e =>
    if e.isExpired now = false then (e.value, true, cache)
    else (translateFn text sourceLang targetLang, false,
      insertC cache (translationKeyV10 sourceLang targetLang (pyHash text))
        ⟨translateFn text sourceLang targetLang, now⟩)
  | none => (translateFn text sourceLang targetLang, false,
      insertC cache (translationKeyV10 sourceLang targetLang (pyHash text))
        ⟨translateFn text sourceLang targetLang, now⟩)

/-- cache/room_cache.py get_or_create_tts for one caller. -/
def getOrCreateTtsRoom (cache : List (String × CacheEntryF (List Char × Nat)))
    (now : Nat) (roomId : String) (text : List Char) (targetLang : String)
    (pyHash : List Char → String)
    (synthesizeFn : List Char → String → List Char × Nat) :
    (List Char × Nat) × Bool × List (String × CacheEntryF (List Char × Nat)) :=
  match lookupC cache (ttsKeyRoom roomId targetLang (pyHash text)) with
  | some e =>
    if e.isExpired now = false then (e.value, true, cache)
    else (synthesizeFn text targetLang, false,
      insertC cache (ttsKeyRoom roomId targetLang (pyHash text))
        ⟨synthesizeFn text targetLang, now⟩)
  | none => (synthesizeFn text targetLang, false,
      insertC cache (ttsKeyRoom roomId targetLang (pyHash text))
        ⟨synthesizeFn text targetLang, now⟩)

/-- server_v10.py get_or_create_tts — key without room_id. -/
def getOrCreateTtsV10 (cache : List (String × CacheEntryF (List Char × Nat)))
    (now : Nat) (text : List Char) (targetLang : String)
    (pyHash : List Char → String)
    (synthesizeFn : List Char → String → List Char × Nat) :
    (List Char × Nat) × Bool × List (String × CacheEntryF (List Char × Nat)) :=
  match lookupC cache (ttsKeyV10 targetLang (pyHash text)) with
  | some e =>
    if e.isExpired now = false then (e.value, true, cache)
    else (synthesizeFn text targetLang, false,
      insertC cache (ttsKeyV10 targetLang (pyHash text))
        ⟨synthesizeFn text targetLang, now⟩)
  | none => (synthesizeFn text targetLang, false,
      insertC cache (ttsKeyV10 targetLang (pyHash text))
        ⟨synthesizeFn text targetLang, now⟩)

lemma string_append_right_cancel (a b c : String) (h : a ++ c = b ++ c) : a = b := by
  have hd : (a ++ c).data = (b ++ c).data := by rw [h]
  rw [String.data_append, String.data_append] at hd
  exact String.ext (List.append_cancel_right hd)

lemma translationKeyRoom_inj (r1 r2 s t h : String) :
    translationKeyRoom r1 s t h = translationKeyRoom r2 s t h ↔ r1 = r2 := by
  constructor
  · intro he
    unfold translationKeyRoom at he
    simp only [String.append_assoc] at he
    exact string_append_right_cancel _ _ _ he
  · intro he; rw [he]

lemma ttsKeyRoom_inj (r1 r2 t h : String) :
    ttsKeyRoom r1 t h = ttsKeyRoom r2 t h ↔ r1 = r2 := by
  constructor
  · intro he
    unfold ttsKeyRoom at he
    simp only [String.append_assoc] at he
    exact string_append_right_cancel _ _ _ he
  · intro he; rw [he]

lemma lookup_single_ne {α : Type} (k1 k2 : String) (e : CacheEntryF α)
    (h : k1 ≠ k2) : lookupC [(k1, e)] k2 = none := by
  unfold lookupC
  rw [List.find?_singleton]
  simp [h]

/-- C2 counterexample: in the server_v10 cache (the implementation the
claim's second source cites) a translation computed while serving room
"r1" is returned, as a cache hit, to a caller whose session is in a
different room "r2": the key has no room component at all, so the
supplied room_id cannot influence the lookup. -/
theorem C2_counterexample :
    translationKeyV10 "ko" "en" "77" = "ko:en:77" ∧
    ttsKeyV10 "en" "77" = "tts:en:77" ∧
    (getOrCreateTranslationV10 [] 0 "hello".data "ko" "en" (fun _ => "77")
        (fun _ _ _ => "va".data)).1 = "va".data ∧
    (getOrCreateTranslationV10
        (getOrCreateTranslationV10 [] 0 "hello".data "ko" "en" (fun _ => "77")
          (fun _ _ _ => "va".data)).2.2
        1 "hello".data "ko" "en" (fun _ => "77") (fun _ _ _ => "vb".data)).1 =
      "va".data ∧
    (getOrCreateTranslationV10
        (getOrCreateTranslationV10 [] 0 "hello".data "ko" "en" (fun _ => "77")
          (fun _ _ _ => "va".data)).2.2
        1 "hello".data "ko" "en" (fun _ => "77") (fun _ _ _ => "vb".data)).2.1 =
      true ∧
    translationKeyRoom "r1" "ko" "en" "77" ≠ translationKeyRoom "r2" "ko" "en" "77" := by
  decide

/-- C2 (amended): in cache/room_cache.py the translation key is the
quadruple (room_id, source_lang, target_lang, hash) and the TTS key the
triple (room_id, target_lang, hash) — injective in room_id for fixed
remaining components, so a value computed for one room is never served
to a caller supplying a different room; in the inline RoomCacheManager
of server_v10.py both keys omit room_id, and a caller with the same text
and languages receives the other room's value within TTL. -/
theorem C2_cache_key_room_scoping :
    (∀ r1 r2 s t h : String,
      translationKeyRoom r1 s t h = translationKeyRoom r2 s t h ↔ r1 = r2) ∧
    (∀ r1 r2 t h : String, ttsKeyRoom r1 t h = ttsKeyRoom r2 t h ↔ r1 = r2) ∧
    (∀ (r1 r2 s t : String) (text : List Char) (hf : List Char → String)
        (f1 f2 : List Char → String → String → List Char) (now1 now2 : Nat),
      r1 ≠ r2 →
      (getOrCreateTranslationRoom [] now1 r1 text s t hf f1).1 = f1 text s t ∧
      (getOrCreateTranslationRoom [] now1 r1 text s t hf f1).2.1 = false ∧
      (getOrCreateTranslationRoom
          (getOrCreateTranslationRoom [] now1 r1 text s t hf f1).2.2
          now2 r2 text s t hf f2).1 = f2 text s t ∧
      (getOrCreateTranslationRoom
          (getOrCreateTranslationRoom [] now1 r1 text s t hf f1).2.2
          now2 r2 text s t hf f2).2.1 = false) ∧
    (∀ (s t : String) (text : List Char) (hf : List Char → String)
        (f1 f2 : List Char → String → String → List Char) (now1 now2 : Nat),
      now1 ≤ now2 → now2 - now1 ≤ CACHE_TTL_SECONDS →
      (getOrCreateTranslationV10
          (getOrCreateTranslationV10 [] now1 text s t hf f1).2.2
          now2 text s t hf f2).1 = f1 text s t ∧
      (getOrCreateTranslationV10
          (getOrCreateTranslationV10 [] now1 text s t hf f1).2.2
          now2 text s t hf f2).2.1 = true) := by
  refine ⟨translationKeyRoom_inj, ttsKeyRoom_inj, ?_, ?_⟩
  · intro r1 r2 s t text hf f1 f2 now1 now2 hne
    have hk : translationKeyRoom r1 s t (hf text) ≠
        translationKeyRoom r2 s t (hf text) := by
      intro he
      exact hne ((translationKeyRoom_inj r1 r2 s t (hf text)).mp he)
    have h1 : getOrCreateTranslationRoom [] now1 r1 text s t hf f1 =
        (f1 text s t, false,
          [(translationKeyRoom r1 s t (hf text), ⟨f1 text s t, now1⟩)]) := by
      unfold getOrCreateTranslationRoom
      rfl
    have h2 : (getOrCreateTranslationRoom [] now1 r1 text s t hf f1).2.2 =
        [(translationKeyRoom r1 s t (hf text), ⟨f1 text s t, now1⟩)] := by
      rw [h1]
    refine ⟨by rw [h1], by rw [h1], ?_, ?_⟩ <;>
    · rw [h2]
      unfold getOrCreateTranslationRoom
      rw [lookup_single_ne _ _ _ hk]
  · intro s t text hf f1 f2 now1 now2 hle httl
    have h1 : getOrCreateTranslationV10 [] now1 text s t hf f1 =
        (f1 text s t, false,
          [(translationKeyV10 s t (hf text), ⟨f1 text s t, now1⟩)]) := by
      unfold getOrCreateTranslationV10
      rfl
    have h2 : (getOrCreateTranslationV10 [] now1 text s t hf f1).2.2 =
        [(translationKeyV10 s t (hf text), ⟨f1 text s t, now1⟩)] := by
      rw [h1]
    have hlk : lookupC [(translationKeyV10 s t (hf text),
        (⟨f1 text s t, now1⟩ : CacheEntryF (List Char)))]
        (translationKeyV10 s t (hf text)) = some ⟨f1 text s t, now1⟩ := by
      unfold lookupC
      rw [List.find?_singleton]
      simp
    have hexp : (⟨f1 text s t, now1⟩ : CacheEntryF (List Char)).isExpired now2 = false := by
      unfold CacheEntryF.isExpired
      simp only [decide_eq_false_iff_not, not_lt]
      simpa [CACHE_TTL_SECONDS] using httl
    constructor <;>
    · rw [h2]
      unfold getOrCreateTranslationV10
      rw [hlk]
      simp [hexp]

/-- Witness for C2 (amended) at concrete rooms and oracles: room "r1"
computes and stores "va"; room "r2" with the same text and languages
computes its own value "vb" in the room-scoped cache, while in the
server_v10 cache the second caller receives "va" as a hit. -/
theorem C2_cache_key_room_scoping_witness :
    (translationKeyRoom "r1" "ko" "en" "77" = translationKeyRoom "r2" "ko" "en" "77" ↔
      ("r1" : String) = "r2") ∧
    ((getOrCreateTranslationRoom
        (getOrCreateTranslationRoom [] 0 "r1" "hello".data "ko" "en" (fun _ => "77")
          (fun _ _ _ => "va".data)).2.2
        1 "r2" "hello".data "ko" "en" (fun _ => "77") (fun _ _ _ => "vb".data)).1 =
      "vb".data) ∧
    ((getOrCreateTranslationV10
        (getOrCreateTranslationV10 [] 0 "hello".data "ko" "en" (fun _ => "77")
          (fun _ _ _ => "va".data)).2.2
        1 "hello".data "ko" "en" (fun _ => "77") (fun _ _ _ => "vb".data)).2.1 = true) := by
  refine ⟨C2_cache_key_room_scoping.1 "r1" "r2" "ko" "en" "77", ?_, ?_⟩
  · exact (C2_cache_key_room_scoping.2.2.1 "r1" "r2" "ko" "en" "hello".data
      (fun _ => "77") (fun _ _ _ => "va".data) (fun _ _ _ => "vb".data) 0 1
      (by decide)).2.2.1
  · exact (C2_cache_key_room_scoping.2.2.2 "ko" "en" "hello".data
      (fun _ => "77") (fun _ _ _ => "va".data) (fun _ _ _ => "vb".data) 0 1
      (by decide) (by decide)).2

/-! Interleaving model of the deduplication layer of cache/room_cache.py
for two concurrent callers with one equal key.  Every
`with self._cache_lock:` block of the source is one atomic step; the
compute call and the `event.wait` run between steps; the clock advances
nondeterministically (`tick`), so arbitrary real time may pass between
any two steps.  A cache entry is represented by its creation time (the
value plays no role in the claims); `pendingGen` is the generation
number of the `threading.Event` currently installed under the key (each
leader installs a fresh event, overwriting), and `signaled` collects the
generations that have been `.set()`. -/

/-- is_expired at a given clock: time.time() - created_at > ttl. -/
def expiredN (now createdAt : Nat) : Bool :=
  decide (now - createdAt > CACHE_TTL_SECONDS)

/-- Control locations of one caller of get_or_create_stt (room_cache.py
lines 134-189).  `tout` records whether the thread woke from event.wait
by timeout rather than by the signal. -/
inductive SttPhase where
  | start
  | waiting (gen : Nat)
  | recheck (tout : Bool)
  | readyInstall (tout : Bool)
  | computing (tout : Bool)
  | readyStore (tout : Bool)
  | readySignal (tout : Bool)
  | doneFresh
  | doneCachedFirst (servedExpired : Bool)
  | doneCachedWait (servedExpired : Bool)
deriving DecidableEq, Repr

structure SttThread where
  phase : SttPhase
  computed : Bool
deriving DecidableEq, Repr

structure SttSys where
  now : Nat
  cache : Option Nat
  pendingGen : Option Nat
  nextGen : Nat
  signaled : List Nat
  t1 : SttThread
  t2 : SttThread
deriving DecidableEq, Repr

def SttSys.th (s : SttSys) (i : Bool) : SttThread := if i then s.t1 else s.t2

def SttSys.setTh (s : SttSys) (i : Bool) (t : SttThread) : SttSys :=
  if i then { s with t1 := t } else { s with t2 := t }

def sttInit : SttSys :=
  ⟨0, none, none, 0, [], ⟨SttPhase.start, false⟩, ⟨SttPhase.start, false⟩⟩

/-- The first lock block falls through (to the pending check, then to
install) iff the cache has no entry or only an expired one. -/
def cacheMissB (s : SttSys) : Bool :=
  match s.cache with
  | none => true
  | some c => expiredN s.now c

/-- One interleaved step of the two-caller get_or_create_stt system.
Constructors follow the source lines: checkHit / checkPending /
checkNoPending are the first `with self._cache_lock:` block (lines
146-157); wakeSignal / wakeTimeout leave `event.wait(timeout=...)`;
recheckHit / recheckMiss are the waiter's re-check block (lines
162-166), which returns any present entry without an expiry test;
install is the `pending_requests[cache_key] = threading.Event()` block;
computeDone ends `transcribe_fn`; store is the result-caching block;
signalSet / signalNone are the `finally` block, which sets and removes
whatever event is currently installed. -/
inductive SttStep : SttSys → SttSys → Prop where
  | tick (s : SttSys) : SttStep s { s with now := s.now + 1 }
  | checkHit (s : SttSys) (i : Bool) (c : Nat) :
      (s.th i).phase = SttPhase.start → s.cache = some c → expiredN s.now c = false →
      SttStep s (s.setTh i ⟨SttPhase.doneCachedFirst (expiredN s.now c), (s.th i).computed⟩)
  | checkPending (s : SttSys) (i : Bool) (g : Nat) :
      (s.th i).phase = SttPhase.start → cacheMissB s = true → s.pendingGen = some g →
      SttStep s (s.setTh i ⟨SttPhase.waiting g, (s.th i).computed⟩)
  | checkNoPending (s : SttSys) (i : Bool) :
      (s.th i).phase = SttPhase.start → cacheMissB s = true → s.pendingGen = none →
      SttStep s (s.setTh i ⟨SttPhase.readyInstall false, (s.th i).computed⟩)
  | wakeSignal (s : SttSys) (i : Bool) (g : Nat) :
      (s.th i).phase = SttPhase.waiting g → g ∈ s.signaled →
      SttStep s (s.setTh i ⟨SttPhase.recheck false, (s.th i).computed⟩)
  | wakeTimeout (s : SttSys) (i : Bool) (g : Nat) :
      (s.th i).phase = SttPhase.waiting g →
      SttStep s (s.setTh i ⟨SttPhase.recheck true, (s.th i).computed⟩)
  | recheckHit (s : SttSys) (i : Bool) (tout : Bool) (c : Nat) :
      (s.th i).phase = SttPhase.recheck tout → s.cache = some c →
      SttStep s (s.setTh i ⟨SttPhase.doneCachedWait (expiredN s.now c), (s.th i).computed⟩)
  | recheckMiss (s : SttSys) (i : Bool) (tout : Bool) :
      (s.th i).phase = SttPhase.recheck tout → s.cache = none →
      SttStep s (s.setTh i ⟨SttPhase.readyInstall tout, (s.th i).computed⟩)
  | install (s : SttSys) (i : Bool) (tout : Bool) :
      (s.th i).phase = SttPhase.readyInstall tout →
      SttStep s { s.setTh i ⟨SttPhase.computing tout, true⟩ with
        pendingGen := some s.nextGen, nextGen := s.nextGen + 1 }
  | computeDone (s : SttSys) (i : Bool) (tout : Bool) :
      (s.th i).phase = SttPhase.computing tout →
      SttStep s (s.setTh i ⟨SttPhase.readyStore tout, (s.th i).computed⟩)
  | store (s : SttSys) (i : Bool) (tout : Bool) :
      (s.th i).phase = SttPhase.readyStore tout →
      SttStep s { s.setTh i ⟨SttPhase.readySignal tout, (s.th i).computed⟩ with
        cache := some s.now }
  | signalSet (s : SttSys) (i : Bool) (tout : Bool) (g : Nat) :
      (s.th i).phase = SttPhase.readySignal tout → s.pendingGen = some g →
      SttStep s { s.setTh i ⟨SttPhase.doneFresh, (s.th i).computed⟩ with
        pendingGen := none, signaled := g :: s.signaled }
  | signalNone (s : SttSys) (i : Bool) (tout : Bool) :
      (s.th i).phase = SttPhase.readySignal tout → s.pendingGen = none →
      SttStep s (s.setTh i ⟨SttPhase.doneFresh, (s.th i).computed⟩)

inductive SttReach : SttSys → Prop where
  | init : SttReach sttInit
  | step {s s' : SttSys} : SttReach s → SttStep s s' → SttReach s'

/-- Control locations of one caller of get_or_create_translation
(room_cache.py lines 191-219; get_or_create_tts lines 221-249 is
line-for-line identical up to the key and value): one check block, the
compute, one store block.  There is no waiting location — the function
never touches pending_requests. -/
inductive TransPhase where
  | start
  | computing
  | readyStore
  | doneFresh
  | doneCachedFirst (servedExpired : Bool)
deriving DecidableEq, Repr

structure TransSys where
  now : Nat
  cache : Option Nat
  t1 : TransPhase
  t2 : TransPhase
deriving DecidableEq, Repr

def TransSys.th (s : TransSys) (i : Bool) : TransPhase := if i then s.t1 else s.t2

def TransSys.setTh (s : TransSys) (i : Bool) (p : TransPhase) : TransSys :=
  if i then { s with t1 := p } else { s with t2 := p }

def transInit : TransSys := ⟨0, none, TransPhase.start, TransPhase.start⟩

def transCacheMissB (s : TransSys) : Bool :=
  match s.cache with
  | none => true
  | some c => expiredN s.now c

/-- One interleaved step of the two-caller get_or_create_translation
system. -/
inductive TransStep : TransSys → TransSys → Prop where
  | tick (s : TransSys) : TransStep s { s with now := s.now + 1 }
  | checkHit (s : TransSys) (i : Bool) (c : Nat) :
      s.th i = TransPhase.start → s.cache = some c → expiredN s.now c = false →
      TransStep s (s.setTh i (TransPhase.doneCachedFirst (expiredN s.now c)))
  | checkMiss (s : TransSys) (i : Bool) :
      s.th i = TransPhase.start → transCacheMissB s = true →
      TransStep s (s.setTh i TransPhase.computing)
  | computeDone (s : TransSys) (i : Bool) :
      s.th i = TransPhase.computing → TransStep s (s.setTh i TransPhase.readyStore)
  | store (s : TransSys) (i : Bool) :
      s.th i = TransPhase.readyStore →
      TransStep s { s.setTh i TransPhase.doneFresh with cache := some s.now }

inductive TransReach : TransSys → Prop where
  | init : TransReach transInit
  | step {s s' : TransSys} : TransReach s → TransStep s s' → TransReach s'

/-! Invariants of the two-caller STT system. -/

/-- Phases in which the caller cannot yet have invoked transcribe_fn, plus
the two cached-return phases (a cached return never follows an own
compute). -/
def noComputePhase : SttPhase → Bool
  | SttPhase.start => true
  | SttPhase.waiting _ => true
  | SttPhase.recheck _ => true
  | SttPhase.readyInstall _ => true
  | SttPhase.doneCachedFirst _ => true
  | SttPhase.doneCachedWait _ => true
  | _ => false

/-- Per-thread invariant: no compute in the pre-compute and cached-return
phases, and a first-check cached return never served an expired entry. -/
def thOk (t : SttThread) : Bool :=
  (!noComputePhase t.phase || !t.computed) &&
    (match t.phase with
     | SttPhase.doneCachedFirst b => !b
     | _ => true)

def sttInv (s : SttSys) : Prop := thOk s.t1 = true ∧ thOk s.t2 = true

lemma thOk_th {s : SttSys} (hs : sttInv s) (i : Bool) : thOk (s.th i) = true := by
  cases i
  · exact hs.2
  · exact hs.1

lemma computed_false {t : SttThread} (ht : thOk t = true)
    (hp : noComputePhase t.phase = true) : t.computed = false := by
  unfold thOk at ht
  rw [hp] at ht
  have h1 := ((Bool.and_eq_true _ _).mp ht).1
  simpa using h1

lemma flag_false {t : SttThread} (ht : thOk t = true) {b : Bool}
    (hp : t.phase = SttPhase.doneCachedFirst b) : b = false := by
  unfold thOk at ht
  rw [hp] at ht
  have h2 := ((Bool.and_eq_true _ _).mp ht).2
  simpa using h2

lemma sttInv_setTh {s : SttSys} (hs : sttInv s) {i : Bool} {t : SttThread}
    (ht : thOk t = true) : sttInv (s.setTh i t) := by
  cases i
  · exact ⟨hs.1, ht⟩
  · exact ⟨ht, hs.2⟩

lemma sttInv_step {s s' : SttSys} (h : SttStep s s') (hs : sttInv s) : sttInv s' := by
  cases h with
  | tick => exact hs
  | checkHit i c hp hc he =>
    have hcf : (s.th i).computed = false :=
      computed_false (thOk_th hs i) (by rw [hp]; rfl)
    exact sttInv_setTh hs (by simp [thOk, noComputePhase, hcf, he])
  | checkPending i g hp hm hg =>
    have hcf : (s.th i).computed = false :=
      computed_false (thOk_th hs i) (by rw [hp]; rfl)
    exact sttInv_setTh hs (by simp [thOk, noComputePhase, hcf])
  | checkNoPending i hp hm hg =>
    have hcf : (s.th i).computed = false :=
      computed_false (thOk_th hs i) (by rw [hp]; rfl)
    exact sttInv_setTh hs (by simp [thOk, noComputePhase, hcf])
  | wakeSignal i g hp hg =>
    have hcf : (s.th i).computed = false :=
      computed_false (thOk_th hs i) (by rw [hp]; rfl)
    exact sttInv_setTh hs (by simp [thOk, noComputePhase, hcf])
  | wakeTimeout i g hp =>
    have hcf : (s.th i).computed = false :=
      computed_false (thOk_th hs i) (by rw [hp]; rfl)
    exact sttInv_setTh hs (by simp [thOk, noComputePhase, hcf])
  | recheckHit i tout c hp hc =>
    have hcf : (s.th i).computed = false :=
      computed_false (thOk_th hs i) (by rw [hp]; rfl)
    exact sttInv_setTh hs (by simp [thOk, noComputePhase, hcf])
  | recheckMiss i tout hp hc =>
    have hcf : (s.th i).computed = false :=
      computed_false (thOk_th hs i) (by rw [hp]; rfl)
    exact sttInv_setTh hs (by simp [thOk, noComputePhase, hcf])
  | install i tout hp =>
    exact sttInv_setTh hs (by simp [thOk, noComputePhase])
  | computeDone i tout hp =>
    exact sttInv_setTh hs (by simp [thOk, noComputePhase])
  | store i tout hp =>
    exact sttInv_setTh hs (by simp [thOk, noComputePhase])
  | signalSet i tout g hp hg =>
    exact sttInv_setTh hs (by simp [thOk, noComputePhase])
  | signalNone i tout hp =>
    exact sttInv_setTh hs (by simp [thOk, noComputePhase])

lemma sttInv_reach {s : SttSys} (h : SttReach s) : sttInv s := by
  induction h with
  | init => exact ⟨rfl, rfl⟩
  | step _ hstep ih => exact sttInv_step hstep ih

lemma transTh_setTh_same (s : TransSys) (p : TransPhase) (i : Bool) :
    (s.setTh i p).th i = p := by
  cases i <;> rfl

lemma transTh_setTh_ne (s : TransSys) (p : TransPhase) {i j : Bool} (h : i ≠ j) :
    (s.setTh i p).th j = s.th j := by
  cases i <;> cases j <;> first | rfl | exact absurd rfl h

/-- C1 counterexample: two concurrent callers of get_or_create_translation
with an equal key that both miss the empty cache both enter the compute
phase — neither observes a cached entry nor ever waits (the translation
system has no waiting location: pending_requests is untouched by
get_or_create_translation / get_or_create_tts); and the coalescing of
get_or_create_stt itself does not make the property true either: two
callers that both pass the check-and-capture block before either
installs the event also end up computing concurrently, without any wait
or timeout having occurred. -/
theorem C1_counterexample :
    (TransStep transInit ⟨0, none, TransPhase.computing, TransPhase.start⟩ ∧
      TransStep ⟨0, none, TransPhase.computing, TransPhase.start⟩
        ⟨0, none, TransPhase.computing, TransPhase.computing⟩ ∧
      TransReach ⟨0, none, TransPhase.computing, TransPhase.computing⟩) ∧
    SttReach ⟨0, none, some 1, 2, [], ⟨SttPhase.computing false, true⟩,
      ⟨SttPhase.computing false, true⟩⟩ := by
  have ht1 : TransStep transInit ⟨0, none, TransPhase.computing, TransPhase.start⟩ :=
    TransStep.checkMiss transInit true rfl rfl
  have ht2 : TransStep ⟨0, none, TransPhase.computing, TransPhase.start⟩
      ⟨0, none, TransPhase.computing, TransPhase.computing⟩ :=
    TransStep.checkMiss ⟨0, none, TransPhase.computing, TransPhase.start⟩ false rfl rfl
  refine ⟨⟨ht1, ht2, TransReach.step (TransReach.step TransReach.init ht1) ht2⟩, ?_⟩
  have r1 : SttReach ⟨0, none, none, 0, [],
      ⟨SttPhase.readyInstall false, false⟩, ⟨SttPhase.start, false⟩⟩ :=
    SttReach.step SttReach.init (SttStep.checkNoPending sttInit true rfl rfl rfl)
  have r2 : SttReach ⟨0, none, none, 0, [],
      ⟨SttPhase.readyInstall false, false⟩, ⟨SttPhase.readyInstall false, false⟩⟩ :=
    SttReach.step r1 (SttStep.checkNoPending _ false rfl rfl rfl)
  have r3 : SttReach ⟨0, none, some 0, 1, [],
      ⟨SttPhase.computing false, true⟩, ⟨SttPhase.readyInstall false, false⟩⟩ :=
    SttReach.step r2 (SttStep.install _ true false rfl)
  exact SttReach.step r3 (SttStep.install _ false false rfl)

/-- C1 (amended): the pending-request coalescing exists only in
get_or_create_stt — there, in every reachable state, a caller that
returned a cached result (from the first check or from the waiter
re-check) never invoked transcribe_fn itself; get_or_create_translation
and get_or_create_tts have no pending-request signal at all: a caller
seeing the start of the function moves directly to computing (or to a
cached return), never to a waiting location, so two concurrent
cache-missing callers both invoke the compute function. -/
theorem C1_dedup_only_in_stt :
    (∀ s : SttSys, SttReach s → ∀ (i : Bool) (b : Bool),
      ((s.th i).phase = SttPhase.doneCachedFirst b ∨
        (s.th i).phase = SttPhase.doneCachedWait b) →
      (s.th i).computed = false) ∧
    (∀ (s s' : TransSys) (i : Bool), TransStep s s' → s.th i = TransPhase.start →
      (s'.th i = TransPhase.start ∨ s'.th i = TransPhase.computing ∨
        ∃ b, s'.th i = TransPhase.doneCachedFirst b)) := by
  constructor
  · intro s hr i b hp
    have ht := thOk_th (sttInv_reach hr) i
    rcases hp with hp | hp
    · exact computed_false ht (by rw [hp]; rfl)
    · exact computed_false ht (by rw [hp]; rfl)
  · intro s s' i hstep hp
    cases hstep with
    | tick => exact Or.inl hp
    | checkHit j c hq hc he =>
      by_cases hij : j = i
      · subst hij
        exact Or.inr (Or.inr ⟨_, transTh_setTh_same s _ j⟩)
      · rw [transTh_setTh_ne s _ hij]
        exact Or.inl hp
    | checkMiss j hq hm =>
      by_cases hij : j = i
      · subst hij
        exact Or.inr (Or.inl (transTh_setTh_same s _ j))
      · rw [transTh_setTh_ne s _ hij]
        exact Or.inl hp
    | computeDone j hq =>
      by_cases hij : j = i
      · subst hij
        rw [hp] at hq
        cases hq
      · rw [transTh_setTh_ne s _ hij]
        exact Or.inl hp
    | store j hq =>
      by_cases hij : j = i
      · subst hij
        rw [hp] at hq
        cases hq
      · have hth : ({ s.setTh j TransPhase.doneFresh with
            cache := some s.now } : TransSys).th i =
            (s.setTh j TransPhase.doneFresh).th i := by
          cases i <;> rfl
        rw [hth, transTh_setTh_ne s _ hij]
        exact Or.inl hp

/-- Witness for C1 (amended): a concrete reachable state in which caller 2
returned a cached STT result — its computed flag is false — and the
concrete translation step in which a cache-missing caller moves straight
to computing. -/
theorem C1_dedup_only_in_stt_witness :
    ((⟨0, some 0, none, 1, [0], ⟨SttPhase.doneFresh, true⟩,
        ⟨SttPhase.doneCachedFirst false, false⟩⟩ : SttSys).th false).computed = false ∧
    ((transInit.setTh true TransPhase.computing).th true = TransPhase.start ∨
      (transInit.setTh true TransPhase.computing).th true = TransPhase.computing ∨
      ∃ b, (transInit.setTh true TransPhase.computing).th true =
        TransPhase.doneCachedFirst b) := by
  constructor
  · have r1 : SttReach ⟨0, none, none, 0, [],
        ⟨SttPhase.readyInstall false, false⟩, ⟨SttPhase.start, false⟩⟩ :=
      SttReach.step SttReach.init (SttStep.checkNoPending sttInit true rfl rfl rfl)
    have r2 : SttReach ⟨0, none, some 0, 1, [],
        ⟨SttPhase.computing false, true⟩, ⟨SttPhase.start, false⟩⟩ :=
      SttReach.step r1 (SttStep.install _ true false rfl)
    have r3 : SttReach ⟨0, none, some 0, 1, [],
        ⟨SttPhase.readyStore false, true⟩, ⟨SttPhase.start, false⟩⟩ :=
      SttReach.step r2 (SttStep.computeDone _ true false rfl)
    have r4 : SttReach ⟨0, some 0, some 0, 1, [],
        ⟨SttPhase.readySignal false, true⟩, ⟨SttPhase.start, false⟩⟩ :=
      SttReach.step r3 (SttStep.store _ true false rfl)
    have r5 : SttReach ⟨0, some 0, none, 1, [0],
        ⟨SttPhase.doneFresh, true⟩, ⟨SttPhase.start, false⟩⟩ :=
      SttReach.step r4 (SttStep.signalSet _ true false 0 rfl rfl)
    have r6 : SttReach ⟨0, some 0, none, 1, [0], ⟨SttPhase.doneFresh, true⟩,
        ⟨SttPhase.doneCachedFirst false, false⟩⟩ :=
      SttReach.step r5 (SttStep.checkHit _ false 0 rfl rfl rfl)
    exact C1_dedup_only_in_stt.1 _ r6 false false (Or.inl rfl)
  · exact C1_dedup_only_in_stt.2 transInit (transInit.setTh true TransPhase.computing)
      true (TransStep.checkMiss transInit true rfl rfl) rfl

lemma sttTh_setTh_same (s : SttSys) (t : SttThread) (i : Bool) :
    (s.setTh i t).th i = t := by
  cases i <;> rfl

lemma sttTh_setTh_ne (s : SttSys) (t : SttThread) {i j : Bool} (h : i ≠ j) :
    (s.setTh i t).th j = s.th j := by
  cases i <;> cases j <;> first | rfl | exact absurd rfl h

lemma sttReach_addTime {s : SttSys} (h : SttReach s) (n : Nat) :
    SttReach { s with now := s.now + n } := by
  induction n with
  | zero => exact h
  | succ k ih => exact SttReach.step ih (SttStep.tick { s with now := s.now + k })

/-- C3 counterexample: a reachable state of the STT system in which the
waiter (caller 2) has returned, with was_cached=true, an entry whose age
at the moment of the re-check read was 11 s, above the 10 s TTL: the
leader stored the entry at time 0 and signalled; 11 seconds elapsed
before the waiter's re-check, which returns any present entry with no
expiry test (room_cache.py lines 162-166). -/
theorem C3_counterexample :
    SttReach ⟨11, some 0, none, 1, [0], ⟨SttPhase.doneFresh, true⟩,
      ⟨SttPhase.doneCachedWait true, false⟩⟩ ∧
    expiredN 11 0 = true ∧ CACHE_TTL_SECONDS = 10 := by
  refine ⟨?_, by decide, rfl⟩
  have r1 : SttReach ⟨0, none, none, 0, [],
      ⟨SttPhase.readyInstall false, false⟩, ⟨SttPhase.start, false⟩⟩ :=
    SttReach.step SttReach.init (SttStep.checkNoPending sttInit true rfl rfl rfl)
  have r2 : SttReach ⟨0, none, some 0, 1, [],
      ⟨SttPhase.computing false, true⟩, ⟨SttPhase.start, false⟩⟩ :=
    SttReach.step r1 (SttStep.install _ true false rfl)
  have r3 : SttReach ⟨0, none, some 0, 1, [],
      ⟨SttPhase.computing false, true⟩, ⟨SttPhase.waiting 0, false⟩⟩ :=
    SttReach.step r2 (SttStep.checkPending _ false 0 rfl rfl rfl)
  have r4 : SttReach ⟨0, none, some 0, 1, [],
      ⟨SttPhase.readyStore false, true⟩, ⟨SttPhase.waiting 0, false⟩⟩ :=
    SttReach.step r3 (SttStep.computeDone _ true false rfl)
  have r5 : SttReach ⟨0, some 0, some 0, 1, [],
      ⟨SttPhase.readySignal false, true⟩, ⟨SttPhase.waiting 0, false⟩⟩ :=
    SttReach.step r4 (SttStep.store _ true false rfl)
  have r6 : SttReach ⟨0, some 0, none, 1, [0],
      ⟨SttPhase.doneFresh, true⟩, ⟨SttPhase.waiting 0, false⟩⟩ :=
    SttReach.step r5 (SttStep.signalSet _ true false 0 rfl rfl)
  have r7 : SttReach ⟨11, some 0, none, 1, [0],
      ⟨SttPhase.doneFresh, true⟩, ⟨SttPhase.waiting 0, false⟩⟩ :=
    sttReach_addTime r6 11
  have r8 : SttReach ⟨11, some 0, none, 1, [0],
      ⟨SttPhase.doneFresh, true⟩, ⟨SttPhase.recheck false, false⟩⟩ :=
    SttReach.step r7 (SttStep.wakeSignal _ false 0 rfl (by simp))
  exact SttReach.step r8 (SttStep.recheckHit _ false false 0 rfl rfl)

/-- C3 (amended): the direct cache-hit paths are guarded by the TTL check
under the lock — a step that returns from the first STT check (and
likewise from the translation/TTS check) happened only with a live
(unexpired) entry, and in every reachable STT state a first-check cached
return has served-expired = false — but the STT waiter path after the
pending wait returns whatever entry is present with no TTL re-check, so
its served entry is expired exactly when its age at the read exceeded
the TTL. -/
theorem C3_ttl_checks :
    (∀ (s s' : SttSys) (i : Bool) (b : Bool), SttStep s s' →
      (s.th i).phase = SttPhase.start →
      (s'.th i).phase = SttPhase.doneCachedFirst b →
      ∃ c, s.cache = some c ∧ expiredN s.now c = false ∧ b = false) ∧
    (∀ s : SttSys, SttReach s → ∀ (i : Bool) (b : Bool),
      (s.th i).phase = SttPhase.doneCachedFirst b → b = false) ∧
    (∀ (s s' : SttSys) (i : Bool) (b : Bool), SttStep s s' →
      (∃ tout, (s.th i).phase = SttPhase.recheck tout) →
      (s'.th i).phase = SttPhase.doneCachedWait b →
      ∃ c, s.cache = some c ∧ b = expiredN s.now c) ∧
    (∀ (s s' : TransSys) (i : Bool) (b : Bool), TransStep s s' →
      s.th i = TransPhase.start →
      s'.th i = TransPhase.doneCachedFirst b →
      ∃ c, s.cache = some c ∧ expiredN s.now c = false ∧ b = false) := by
  refine ⟨?_, ?_, ?_, ?_⟩
  · intro s s' i b hstep hp hp'
    cases hstep with
    | tick =>
      rw [show ({s with now := s.now + 1} : SttSys).th i = s.th i from
        by cases i <;> rfl, hp] at hp'
      simp at hp'
    | checkHit j c hq hc he =>
      by_cases hij : j = i
      · subst hij
        rw [sttTh_setTh_same] at hp'
        simp only at hp'
        cases hp'
        exact ⟨c, hc, he, he⟩
      · rw [sttTh_setTh_ne _ _ hij, hp] at hp'
        simp at hp'
    | checkPending j g hq hm hg =>
      by_cases hij : j = i
      · subst hij
        rw [sttTh_setTh_same] at hp'
        simp at hp'
      · rw [sttTh_setTh_ne _ _ hij, hp] at hp'
        simp at hp'
    | checkNoPending j hq hm hg =>
      by_cases hij : j = i
      · subst hij
        rw [sttTh_setTh_same] at hp'
        simp at hp'
      · rw [sttTh_setTh_ne _ _ hij, hp] at hp'
        simp at hp'
    | wakeSignal j g hq hg =>
      by_cases hij : j = i
      · subst hij
        rw [sttTh_setTh_same] at hp'
        simp at hp'
      · rw [sttTh_setTh_ne _ _ hij, hp] at hp'
        simp at hp'
    | wakeTimeout j g hq =>
      by_cases hij : j = i
      · subst hij
        rw [sttTh_setTh_same] at hp'
        simp at hp'
      · rw [sttTh_setTh_ne _ _ hij, hp] at hp'
        simp at hp'
    | recheckHit j tout c hq hc =>
      by_cases hij : j = i
      · subst hij
        rw [hp] at hq
        simp at hq
      · rw [sttTh_setTh_ne _ _ hij, hp] at hp'
        simp at hp'
    | recheckMiss j tout hq hc =>
      by_cases hij : j = i
      · subst hij
        rw [hp] at hq
        simp at hq
      · rw [sttTh_setTh_ne _ _ hij, hp] at hp'
        simp at hp'
    | install j tout hq =>
      rw [show ({s.setTh j ⟨SttPhase.computing tout, true⟩ with
        pendingGen := some s.nextGen, nextGen := s.nextGen + 1} : SttSys).th i =
          (s.setTh j ⟨SttPhase.computing tout, true⟩).th i from by cases i <;> rfl] at hp'
      by_cases hij : j = i
      · subst hij
        rw [sttTh_setTh_same] at hp'
        simp at hp'
      · rw [sttTh_setTh_ne _ _ hij, hp] at hp'
        simp at hp'
    | computeDone j tout hq =>
      by_cases hij : j = i
      · subst hij
        rw [sttTh_setTh_same] at hp'
        simp at hp'
      · rw [sttTh_setTh_ne _ _ hij, hp] at hp'
        simp at hp'
    | store j tout hq =>
      rw [show ({s.setTh j ⟨SttPhase.readySignal tout, (s.th j).computed⟩ with
        cache := some s.now} : SttSys).th i =
          (s.setTh j ⟨SttPhase.readySignal tout, (s.th j).computed⟩).th i from
        by cases i <;> rfl] at hp'
      by_cases hij : j = i
      · subst hij
        rw [sttTh_setTh_same] at hp'
        simp at hp'
      · rw [sttTh_setTh_ne _ _ hij, hp] at hp'
        simp at hp'
    | signalSet j tout g hq hg =>
      rw [show ({s.setTh j ⟨SttPhase.doneFresh, (s.th j).computed⟩ with
        pendingGen := none, signaled := g :: s.signaled} : SttSys).th i =
          (s.setTh j ⟨SttPhase.doneFresh, (s.th j).computed⟩).th i from
        by cases i <;> rfl] at hp'
      by_cases hij : j = i
      · subst hij
        rw [sttTh_setTh_same] at hp'
        simp at hp'
      · rw [sttTh_setTh_ne _ _ hij, hp] at hp'
        simp at hp'
    | signalNone j tout hq =>
      by_cases hij : j = i
      · subst hij
        rw [sttTh_setTh_same] at hp'
        simp at hp'
      · rw [sttTh_setTh_ne _ _ hij, hp] at hp'
        simp at hp'
  · intro s hr i b hp
    exact flag_false (thOk_th (sttInv_reach hr) i) hp
  · intro s s' i b hstep hrk hp'
    obtain ⟨tout0, hp⟩ := hrk
    cases hstep with
    | tick =>
      rw [show ({s with now := s.now + 1} : SttSys).th i = s.th i from
        by cases i <;> rfl, hp] at hp'
      simp at hp'
    | checkHit j c hq hc he =>
      by_cases hij : j = i
      · subst hij
        rw [hp] at hq
        simp at hq
      · rw [sttTh_setTh_ne _ _ hij, hp] at hp'
        simp at hp'
    | checkPending j g hq hm hg =>
      by_cases hij : j = i
      · subst hij
        rw [hp] at hq
        simp at hq
      · rw [sttTh_setTh_ne _ _ hij, hp] at hp'
        simp at hp'
    | checkNoPending j hq hm hg =>
      by_cases hij : j = i
      · subst hij
        rw [hp] at hq
        simp at hq
      · rw [sttTh_setTh_ne _ _ hij, hp] at hp'
        simp at hp'
    | wakeSignal j g hq hg =>
      by_cases hij : j = i
      · subst hij
        rw [hp] at hq
        simp at hq
      · rw [sttTh_setTh_ne _ _ hij, hp] at hp'
        simp at hp'
    | wakeTimeout j g hq =>
      by_cases hij : j = i
      · subst hij
        rw [hp] at hq
        simp at hq
      · rw [sttTh_setTh_ne _ _ hij, hp] at hp'
        simp at hp'
    | recheckHit j tout c hq hc =>
      by_cases hij : j = i
      · subst hij
        rw [sttTh_setTh_same] at hp'
        simp only at hp'
        cases hp'
        exact ⟨c, hc, rfl⟩
      · rw [sttTh_setTh_ne _ _ hij, hp] at hp'
        simp at hp'
    | recheckMiss j tout hq hc =>
      by_cases hij : j = i
      · subst hij
        rw [sttTh_setTh_same] at hp'
        simp at hp'
      · rw [sttTh_setTh_ne _ _ hij, hp] at hp'
        simp at hp'
    | install j tout hq =>
      rw [show ({s.setTh j ⟨SttPhase.computing tout, true⟩ with
        pendingGen := some s.nextGen, nextGen := s.nextGen + 1} : SttSys).th i =
          (s.setTh j ⟨SttPhase.computing tout, true⟩).th i from by cases i <;> rfl] at hp'
      by_cases hij : j = i
      · subst hij
        rw [sttTh_setTh_same] at hp'
        simp at hp'
      · rw [sttTh_setTh_ne _ _ hij, hp] at hp'
        simp at hp'
    | computeDone j tout hq =>
      by_cases hij : j = i
      · subst hij
        rw [sttTh_setTh_same] at hp'
        simp at hp'
      · rw [sttTh_setTh_ne _ _ hij, hp] at hp'
        simp at hp'
    | store j tout hq =>
      rw [show ({s.setTh j ⟨SttPhase.readySignal tout, (s.th j).computed⟩ with
        cache := some s.now} : SttSys).th i =
          (s.setTh j ⟨SttPhase.readySignal tout, (s.th j).computed⟩).th i from
        by cases i <;> rfl] at hp'
      by_cases hij : j = i
      · subst hij
        rw [sttTh_setTh_same] at hp'
        simp at hp'
      · rw [sttTh_setTh_ne _ _ hij, hp] at hp'
        simp at hp'
    | signalSet j tout g hq hg =>
      rw [show ({s.setTh j ⟨SttPhase.doneFresh, (s.th j).computed⟩ with
        pendingGen := none, signaled := g :: s.signaled} : SttSys).th i =
          (s.setTh j ⟨SttPhase.doneFresh, (s.th j).computed⟩).th i from
        by cases i <;> rfl] at hp'
      by_cases hij : j = i
      · subst hij
        rw [sttTh_setTh_same] at hp'
        simp at hp'
      · rw [sttTh_setTh_ne _ _ hij, hp] at hp'
        simp at hp'
    | signalNone j tout hq =>
      by_cases hij : j = i
      · subst hij
        rw [sttTh_setTh_same] at hp'
        simp at hp'
      · rw [sttTh_setTh_ne _ _ hij, hp] at hp'
        simp at hp'
  · intro s s' i b hstep hp hp'
    cases hstep with
    | tick =>
      rw [show ({s with now := s.now + 1} : TransSys).th i = s.th i from
        by cases i <;> rfl, hp] at hp'
      simp at hp'
    | checkHit j c hq hc he =>
      by_cases hij : j = i
      · subst hij
        rw [transTh_setTh_same] at hp'
        cases hp'
        exact ⟨c, hc, he, he⟩
      · rw [transTh_setTh_ne _ _ hij, hp] at hp'
        simp at hp'
    | checkMiss j hq hm =>
      by_cases hij : j = i
      · subst hij
        rw [transTh_setTh_same] at hp'
        simp at hp'
      · rw [transTh_setTh_ne _ _ hij, hp] at hp'
        simp at hp'
    | computeDone j hq =>
      by_cases hij : j = i
      · subst hij
        rw [hp] at hq
        simp at hq
      · rw [transTh_setTh_ne _ _ hij, hp] at hp'
        simp at hp'
    | store j hq =>
      rw [show ({s.setTh j TransPhase.doneFresh with cache := some s.now} :
          TransSys).th i = (s.setTh j TransPhase.doneFresh).th i from
        by cases i <;> rfl] at hp'
      by_cases hij : j = i
      · subst hij
        rw [transTh_setTh_same] at hp'
        simp at hp'
      · rw [transTh_setTh_ne _ _ hij, hp] at hp'
        simp at hp'

/-- Witness for C3 (amended), applying each part at a concrete step or
state: the leader's fresh-entry hit at time 0 (part 1 and part 2 at the
reachable state of the C1 witness trace), the waiter's unchecked read of
the age-11 entry (part 3 at the final step of a concrete trace), and the
translation-cache hit (part 4). -/
theorem C3_ttl_checks_witness :
    (∃ c, (⟨0, some 0, none, 1, [0], ⟨SttPhase.doneFresh, true⟩,
        ⟨SttPhase.start, false⟩⟩ : SttSys).cache = some c ∧
      expiredN 0 c = false ∧ false = false) ∧
    (∃ c, (⟨11, some 0, none, 1, [0], ⟨SttPhase.doneFresh, true⟩,
        ⟨SttPhase.recheck false, false⟩⟩ : SttSys).cache = some c ∧
      true = expiredN 11 c) ∧
    (∃ c, (⟨3, some 0, TransPhase.doneFresh, TransPhase.start⟩ : TransSys).cache =
        some c ∧ expiredN 3 c = false ∧ false = false) := by
  refine ⟨?_, ?_, ?_⟩
  · exact C3_ttl_checks.1
      ⟨0, some 0, none, 1, [0], ⟨SttPhase.doneFresh, true⟩, ⟨SttPhase.start, false⟩⟩
      _ false false (SttStep.checkHit _ false 0 rfl rfl rfl) rfl
      (by rw [sttTh_setTh_same]; rfl)
  · exact C3_ttl_checks.2.2.1
      ⟨11, some 0, none, 1, [0], ⟨SttPhase.doneFresh, true⟩,
        ⟨SttPhase.recheck false, false⟩⟩
      _ false true (SttStep.recheckHit _ false false 0 rfl rfl) ⟨false, rfl⟩
      (by rw [sttTh_setTh_same]; rfl)
  · exact C3_ttl_checks.2.2.2
      ⟨3, some 0, TransPhase.doneFresh, TransPhase.start⟩
      _ false false (TransStep.checkHit _ false 0 rfl rfl rfl) rfl
      (by rw [transTh_setTh_same]; rfl)

/-- Witness for C7 at a concrete session: one enabled English listener of
a Korean speaker. -/
theorem C7_primary_strategy_witness :
    (determinePrimaryStrategy [⟨"p1", "en", true⟩] "ko" = Strategy.SENTENCE_BASED ↔
      ∃ p ∈ [(⟨"p1", "en", true⟩ : Participant)], p.translation_enabled = true ∧
        p.target_language ≠ "ko" ∧
        wordOrderGroup "ko" ≠ wordOrderGroup p.target_language) ∧
    ((sessionReadyBuffering ⟨"s1", "ko"⟩ [⟨"p1", "en", true⟩]).strategy =
        determinePrimaryStrategy [⟨"p1", "en", true⟩] "ko" ∧
      (sessionReadyBuffering ⟨"s1", "ko"⟩ [⟨"p1", "en", true⟩]).buffer_size_ms = 0) :=
  ⟨C7_primary_strategy.1 [⟨"p1", "en", true⟩] "ko",
    C7_primary_strategy.2 ⟨"s1", "ko"⟩ [⟨"p1", "en", true⟩]⟩

/-- Witness for C10 at a concrete pre-init audio chunk. -/
theorem C10_audio_chunk_without_session_witness :
    streamStep ⟨"안녕하세요".data, "t1", fun _ _ _ => "hello".data,
      fun _ _ => ("m".data, 5)⟩ "s" "r" none (Request.audio_chunk true 960) =
      (none, []) :=
  C10_audio_chunk_without_session _ "s" "r" true 960

end Eum
